import Mathlib

/-
  Verification development for the WhatsApp task-manager bot.

  Shallow embedding of the conversation flow engine, the conversation
  state store, the command lexicon, the slot-extraction layer and the
  entity services, translated from the Python sources:
    src/bot/flows.py, src/bot/commands.py, src/bot/handlers.py,
    src/services/smart_parse_service.py, src/services/voice_service.py,
    src/services/task_service.py, src/services/meeting_service.py,
    src/services/reminder_service.py.

  Modelling conventions:
  * Python dicts that cross the JSON serialization boundary (flow data,
    parse results) are embedded as association lists of JSON values
    (`JMap`); keys are unique in every state the program produces.
  * Python exceptions escaping a flow-step handler are modelled with
    `Except St St`: `.error st` carries the side effects performed up to
    the raise (the dispatcher's catch-all then clears the flow).
  * The `json` library contract is modelled by storing either the
    serialized object (`Blob.jsonOf`) or an unparseable blob
    (`Blob.invalid`); `json.loads (json.dumps d) = d` for dicts.
  * Wall-clock datetimes are embedded on a minute timeline: a civil date
    converts to a day number (proleptic Gregorian) and a datetime is
    `days * 1440 + minutesInDay`.
  * External collaborators (the GPT parse backend, transcription, the
    outbound channel) are oracle parameters; theorems quantify over them.
-/

namespace WTM

/-! ## JSON values and maps (Python dicts crossing the JSON boundary) -/

/-- A JSON value, as produced by `json.loads` / consumed by `json.dumps`. -/
inductive JVal where
  | null
  | bool (b : Bool)
  | num (n : Int)
  | str (s : String)
  | arr (elems : List JVal)
  | obj (fields : List (String × JVal))
deriving Repr

/-- A JSON object body: an association list of string keys to values. -/
abbrev JMap := List (String × JVal)

mutual

/-- Decidable structural equality for JSON values. -/
def JVal.beq : JVal → JVal → Bool
  | .null, .null => true
  | .bool a, .bool b => a == b
  | .num a, .num b => a == b
  | .str a, .str b => a == b
  | .arr a, .arr b => JVal.beqList a b
  | .obj a, .obj b => JVal.beqFields a b
  | _, _ => false

/-- Equality on lists of JSON values. -/
def JVal.beqList : List JVal → List JVal → Bool
  | [], [] => true
  | a :: as1, b :: bs => JVal.beq a b && JVal.beqList as1 bs
  | _, _ => false

/-- Equality on JSON object field lists. -/
def JVal.beqFields : List (String × JVal) → List (String × JVal) → Bool
  | [], [] => true
  | (k1, v1) :: t1, (k2, v2) :: t2 => k1 == k2 && JVal.beq v1 v2 && JVal.beqFields t1 t2
  | _, _ => false

end

instance : BEq JVal := ⟨JVal.beq⟩

mutual

/-- `JVal.beq` is sound and complete for propositional equality. -/
theorem JVal.beq_iff : ∀ a b : JVal, JVal.beq a b = true ↔ a = b
  | .null, b => by cases b <;> simp [JVal.beq]
  | .bool x, b => by cases b <;> simp [JVal.beq]
  | .num x, b => by cases b <;> simp [JVal.beq]
  | .str x, b => by cases b <;> simp [JVal.beq]
  | .arr xs, b => by
      cases b <;> simp [JVal.beq]
      exact JVal.beqList_iff xs _
  | .obj fs, b => by
      cases b <;> simp [JVal.beq]
      exact JVal.beqFields_iff fs _

/-- List version of `JVal.beq_iff`. -/
theorem JVal.beqList_iff : ∀ a b : List JVal, JVal.beqList a b = true ↔ a = b
  | [], b => by cases b <;> simp [JVal.beqList]
  | x :: xs, b => by
      cases b with
      | nil => simp [JVal.beqList]
      | cons y ys =>
          simp [JVal.beqList, Bool.and_eq_true, JVal.beq_iff x y, JVal.beqList_iff xs ys]

/-- Field-list version of `JVal.beq_iff`. -/
theorem JVal.beqFields_iff : ∀ a b : List (String × JVal), JVal.beqFields a b = true ↔ a = b
  | [], b => by cases b <;> simp [JVal.beqFields]
  | (k, v) :: xs, b => by
      cases b with
      | nil => simp [JVal.beqFields]
      | cons y ys =>
          obtain ⟨k2, v2⟩ := y
          simp [JVal.beqFields, Bool.and_eq_true, JVal.beq_iff v v2,
                JVal.beqFields_iff xs ys, and_assoc]

end

instance : DecidableEq JVal := fun a b =>
  decidable_of_iff (JVal.beq a b = true) (JVal.beq_iff a b)

/-- Python truthiness of a JSON value (`bool(v)`). -/
def JVal.truthy : JVal → Bool
  | .null => false
  | .bool b => b
  | .num n => n != 0
  | .str s => !s.isEmpty
  | .arr xs => !xs.isEmpty
  | .obj m => !m.isEmpty

/-- Python `d.get(k)`: the first binding for `k`, if any. -/
def jget (m : JMap) (k : String) : Option JVal :=
  match m.find? (fun p => p.1 == k) with
  | some p => some p.2
  | none => none

/-- Python `d.get(k, dflt)`. -/
def jgetD (m : JMap) (k : String) (dflt : JVal) : JVal :=
  (jget m k).getD dflt

/-- Python `d[k] = v`: replace in place, or append a new binding. -/
def jset : JMap → String → JVal → JMap
  | [], k, v => [(k, v)]
  | (k1, v1) :: rest, k, v =>
      if k1 == k then (k, v) :: rest else (k1, v1) :: jset rest k v

/-- Python `d.pop(k, dflt)` (the removal part; keys are unique in program states). -/
def jpop (m : JMap) (k : String) : JMap :=
  m.filter (fun p => p.1 ≠ k)

/-- Python `d.setdefault(k, v)`. -/
def jsetdefault (m : JMap) (k : String) (v : JVal) : JMap :=
  match jget m k with
  | some _ => m
  | none => m ++ [(k, v)]

/-! ## Civil dates and the minute timeline -/

/-- A civil (proleptic Gregorian) calendar date, as in Python `datetime.date`. -/
structure Date where
  y : Nat
  m : Nat
  d : Nat
deriving DecidableEq, Repr

/-- Gregorian leap-year test. -/
def isLeap (y : Nat) : Bool :=
  (y % 4 == 0 && y % 100 != 0) || y % 400 == 0

/-- Number of days in a month. -/
def daysInMonth (y m : Nat) : Nat :=
  if m == 2 then (if isLeap y then 29 else 28)
  else if m == 4 || m == 6 || m == 9 || m == 11 then 30
  else 31

/-- Day number of a civil date (days since 0000-03-01, shifted-year algorithm). -/
def daysFromCivil (dt : Date) : Nat :=
  let y1 := if dt.m ≤ 2 then dt.y - 1 else dt.y
  let era := y1 / 400
  let yoe := y1 % 400
  let mp := (dt.m + 9) % 12
  let doy := (153 * mp + 2) / 5 + dt.d - 1
  let doe := yoe * 365 + yoe / 4 - yoe / 100 + doy
  era * 146097 + doe

/-- Weekday with Monday = 0 (Python `date.weekday()`). -/
def weekdayMon (dt : Date) : Nat :=
  (daysFromCivil dt + 2) % 7

/-- The next calendar day (Python `timedelta(days=1)` addition). -/
def nextDay (dt : Date) : Date :=
  if dt.d < daysInMonth dt.y dt.m then ⟨dt.y, dt.m, dt.d + 1⟩
  else if dt.m < 12 then ⟨dt.y, dt.m + 1, 1⟩
  else ⟨dt.y + 1, 1, 1⟩

/-- Add `n` days to a civil date. -/
def addDays (dt : Date) : Nat → Date
  | 0 => dt
  | n + 1 => addDays (nextDay dt) n

/-- Zero-pad a numeral to two digits. -/
def pad2 (n : Nat) : String :=
  if n < 10 then "0" ++ toString n else toString n

/-- Zero-pad a numeral to four digits. -/
def pad4 (n : Nat) : String :=
  if n < 10 then "000" ++ toString n
  else if n < 100 then "00" ++ toString n
  else if n < 1000 then "0" ++ toString n
  else toString n

/-- Python `date.isoformat()`: `YYYY-MM-DD`. -/
def isoDate (dt : Date) : String :=
  pad4 dt.y ++ "-" ++ pad2 dt.m ++ "-" ++ pad2 dt.d

/-- Numeric value of a nonempty all-digit character run. -/
def digitsVal (cs : List Char) : Option Nat :=
  if cs ≠ [] ∧ cs.all Char.isDigit then
    some (cs.foldl (fun a c => a * 10 + (c.toNat - 48)) 0)
  else none

/-- Split a string on every occurrence of a separator character
(Python `s.split(sep)` for the one-character separators this code uses). -/
def splitChar (sep : Char) : List Char → List (List Char)
  | [] => [[]]
  | c :: rest =>
      let r := splitChar sep rest
      if c == sep then [] :: r
      else
        match r with
        | h :: t => (c :: h) :: t
        | [] => [[c]]

/-- `splitChar` on strings. -/
def strSplit (s : String) (sep : Char) : List String :=
  (splitChar sep s.toList).map List.asString

/-- Python `datetime.strptime(s, "%Y-%m-%d")`: 1-4 digit year, 1-2 digit
month/day, calendar-validated; `none` models the `ValueError`. -/
def parseIsoDate (s : String) : Option Date :=
  match strSplit s '-' with
  | [ys, ms, ds] =>
      match digitsVal ys.toList, digitsVal ms.toList, digitsVal ds.toList with
      | some y, some m, some d =>
          if ys.length ≤ 4 ∧ ms.length ≤ 2 ∧ ds.length ≤ 2 ∧
             1 ≤ y ∧ 1 ≤ m ∧ m ≤ 12 ∧ 1 ≤ d ∧ d ≤ daysInMonth y m
          then some ⟨y, m, d⟩ else none
      | _, _, _ => none
  | _ => none

/-- Python `datetime.strptime(s, "%H:%M")`, as minutes within the day. -/
def parseTimeHM (s : String) : Option Nat :=
  match strSplit s ':' with
  | [hs, ms] =>
      match digitsVal hs.toList, digitsVal ms.toList with
      | some h, some mi =>
          if hs.length ≤ 2 ∧ ms.length ≤ 2 ∧ h ≤ 23 ∧ mi ≤ 59
          then some (h * 60 + mi) else none
      | _, _ => none
  | _ => none

/-! ## Conversation state store (src/bot/flows.py) -/

/-- The stored `flow_data` TEXT column, via the `json` library contract:
`jsonOf m` is the string `json.dumps(m)` for an object `m` (the only shape
this program ever serializes), `invalid` is any text `json.loads` rejects
(the empty string included). -/
inductive Blob where
  | jsonOf (m : JMap)
  | invalid
deriving DecidableEq, Repr

/-- One row of the `conversations` table (the most recent row per user;
`current_flow` is dynamically typed in SQLite, hence a `JVal`). -/
structure ConvRow where
  current_flow : JVal
  flow_data : Option Blob
  last_interaction : Nat
deriving DecidableEq, Repr

/-- The `conversations` table, keyed by user id (at most one live row each). -/
abbrev ConvTable := Nat → Option ConvRow

/-- The `flow_data` load in `ConversationFlow.get_flow`:
`json.loads(row["flow_data"]) if row["flow_data"] else {}`, with
`JSONDecodeError`/`TypeError` giving `{}`. -/
def loadFlowData : Option Blob → JMap
  | none => []
  | some (.jsonOf m) => m
  | some .invalid => []

/-- `ConversationFlow.get_flow`, as a function of the database fetch outcome:
`.error` is any storage exception, `.ok none` is "no row". Translates
`if row and row["current_flow"]: ... return None, {}` and the whole-body
`except Exception: return None, {}`. -/
def get_flow (fetch : Except Unit (Option ConvRow)) : JVal × JMap :=
  match fetch with
  | .error _ => (.null, [])
  | .ok none => (.null, [])
  | .ok (some row) =>
      if row.current_flow.truthy then (row.current_flow, loadFlowData row.flow_data)
      else (.null, [])

/-- Read the flow state of one user out of the table. -/
def getFlowOf (t : ConvTable) (u : Nat) : JVal × JMap :=
  get_flow (.ok (t u))

/-- `ConversationFlow.set_flow`: upsert the user's row with the given flow
name, the serialized data (`{}` when the argument is `None`) and a fresh
`last_interaction` stamp. -/
def set_flow (t : ConvTable) (u : Nat) (flowName : JVal) (flowData : Option JMap)
    (now : Nat) : ConvTable :=
  let d := flowData.getD []
  fun x => if x == u then some ⟨flowName, some (.jsonOf d), now⟩ else t x

/-- `ConversationFlow.clear_flow`: null the flow and reset the data to the
literal `{}` on the user's existing row (pure UPDATE, no insert). -/
def clear_flow (t : ConvTable) (u : Nat) (now : Nat) : ConvTable :=
  fun x =>
    if x == u then
      match t x with
      | some _ => some ⟨.null, some (.jsonOf []), now⟩
      | none => none
    else t x

/-! ## String helpers (Python string and `re` operations, hand-rolled) -/

/-- Python slicing `s[:n]` (by code points). -/
def strTake (s : String) (n : Nat) : String :=
  (s.toList.take n).asString

/-- Python slicing `s[n:]`. -/
def strDrop (s : String) (n : Nat) : String :=
  (s.toList.drop n).asString

/-- Python `s.strip()` (drop whitespace from both ends). -/
def pyStrip (s : String) : String :=
  ((s.toList.dropWhile Char.isWhitespace).reverse.dropWhile Char.isWhitespace).reverse.asString

/-- Python `re.sub(r"[^\d]", "", s)`. -/
def filterDigits (s : String) : String :=
  (s.toList.filter Char.isDigit).asString

/-- Python `s.lower()` (basic-latin case folding, as `str.lower` does for
the ASCII letters this code base compares). -/
def strLower (s : String) : String :=
  (s.toList.map Char.toLower).asString

/-- Python `s.upper()`. -/
def strUpper (s : String) : String :=
  (s.toList.map Char.toUpper).asString

/-- Match a literal character run at the head of a list, returning the rest. -/
def litAt : List Char → List Char → Option (List Char)
  | [], rest => some rest
  | _, [] => none
  | a :: as1, b :: bs => if a == b then litAt as1 bs else none

/-- Case-insensitive literal match at the head (the literal is lowercase). -/
def litAtCI : List Char → List Char → Option (List Char)
  | [], rest => some rest
  | _, [] => none
  | a :: as1, b :: bs => if a == b.toLower then litAtCI as1 bs else none

/-- Python `s.startswith(pre)`. -/
def strStarts (s pre : String) : Bool :=
  (litAt pre.toList s.toList).isSome

/-- Substring search, the Python `needle in hay` operator. -/
def listHasInfix (n : List Char) : List Char → Bool
  | [] => (litAt n []).isSome
  | c :: rest => (litAt n (c :: rest)).isSome || listHasInfix n rest

/-- Python `needle in hay` on strings. -/
def strContains (hay needle : String) : Bool :=
  listHasInfix needle.toList hay.toList

/-- A `\w` character for the word boundaries in this code base's patterns
(ASCII alphanumerics, underscore, and the Hebrew letter block). -/
def isWordChar (c : Char) : Bool :=
  c.isAlphanum || c == '_' || (0x5D0 ≤ c.toNat && c.toNat ≤ 0x5EA)

/-- Does one of the (lowercase) literal alternatives match here, with a word
boundary right after it? Alternatives are tried in pattern order. -/
def altWordHere (alts : List (List Char)) (s : List Char) : Bool :=
  alts.any fun w =>
    match litAt w s with
    | some [] => true
    | some (c :: _) => !isWordChar c
    | none => false

/-- Scan for `\b(alt1|alt2|...)\b` (case already folded; every alternative
starts with a word character, so the left boundary is "previous char is not
a word char"). -/
def searchWordAlts (alts : List (List Char)) : Bool → List Char → Bool
  | _, [] => false
  | prevWord, c :: rest =>
      (!prevWord && altWordHere alts (c :: rest)) ||
        searchWordAlts alts (isWordChar c) rest

/-- `re.search(r"\b(alt|...)\b", text, re.IGNORECASE)` as a Boolean. -/
def wordAltSearch (alts : List String) (text : String) : Bool :=
  searchWordAlts (alts.map (fun a => a.toList)) false (strLower text).toList

/-- Take up to `n` leading decimal digits. -/
def takeDigits : Nat → List Char → List Char × List Char
  | 0, s => ([], s)
  | _ + 1, [] => ([], [])
  | n + 1, c :: rest =>
      if c.isDigit then
        let (ds, r) := takeDigits n rest
        (c :: ds, r)
      else ([], c :: rest)

/-- Match `\d{4}-\d{2}-\d{2}` exactly at this position, with a trailing word
boundary; returns the matched text. -/
def isoDateHere (s : List Char) : Option String :=
  let (y, r1) := takeDigits 4 s
  if y.length != 4 then none else
  match r1 with
  | '-' :: r2 =>
      let (mo, r3) := takeDigits 2 r2
      if mo.length != 2 then none else
      match r3 with
      | '-' :: r4 =>
          let (d, r5) := takeDigits 2 r4
          if d.length != 2 then none else
          match r5 with
          | [] => some (y ++ ['-'] ++ mo ++ ['-'] ++ d).asString
          | c :: _ =>
              if isWordChar c then none
              else some (y ++ ['-'] ++ mo ++ ['-'] ++ d).asString
      | _ => none
  | _ => none

/-- `re.search(r"\b(\d{4}-\d{2}-\d{2})\b", text)`: first match. -/
def searchIsoDate : Bool → List Char → Option String
  | _, [] => none
  | prevWord, c :: rest =>
      match if prevWord then none else isoDateHere (c :: rest) with
      | some m => some m
      | none => searchIsoDate (isWordChar c) rest

/-- Match `(\d{1,2})/(\d{1,2})/(\d{4})\b` at this position (greedy group
lengths with backtracking). -/
def slashDateHere (s : List Char) : Option (Nat × Nat × Nat) :=
  let tryLens : List Nat → List Char → Option (Nat × List Char) := fun lens cs =>
    lens.firstM fun len =>
      let (ds, r) := takeDigits len cs
      if ds.length == len then
        match digitsVal ds with
        | some v => some (v, r)
        | none => none
      else none
  match tryLens [2, 1] s with
  | none => none
  | some (dNum, r1) =>
      match r1 with
      | '/' :: r2 =>
          match tryLens [2, 1] r2 with
          | none => none
          | some (mNum, r3) =>
              match r3 with
              | '/' :: r4 =>
                  let (ys, r5) := takeDigits 4 r4
                  if ys.length != 4 then none else
                  match digitsVal ys with
                  | none => none
                  | some yNum =>
                      match r5 with
                      | [] => some (dNum, mNum, yNum)
                      | c :: _ => if isWordChar c then none else some (dNum, mNum, yNum)
              | _ => none
      | _ => none

/-- `re.search(r"\b(\d{1,2})/(\d{1,2})/(\d{4})\b", text)`: first match. -/
def searchSlashDate : Bool → List Char → Option (Nat × Nat × Nat)
  | _, [] => none
  | prevWord, c :: rest =>
      match if prevWord then none else slashDateHere (c :: rest) with
      | some m => some m
      | none => searchSlashDate (isWordChar c) rest

/-! ## Command lexicon (src/bot/commands.py) -/

/-- `HEBREW_COMMANDS`. -/
def hebrewCommands : List (String × String) :=
  [("משימה חדשה", "new_task"), ("המשימות שלי", "my_tasks"), ("עזרה", "help"),
   ("היי", "welcome"), ("שלום", "welcome"), ("תפריט", "welcome"),
   ("בוצע", "complete"), ("תזכורות", "reminders"), ("פגישות", "meetings")]

/-- `ENGLISH_COMMANDS`. -/
def englishCommands : List (String × String) :=
  [("new task", "new_task"), ("my tasks", "my_tasks"), ("help", "help"),
   ("hi", "welcome"), ("hello", "welcome"), ("done", "complete")]

/-- `MENU_SELECTIONS`. -/
def menuSelections : List (String × String) :=
  [("1", "task_today"), ("2", "task_scheduled"), ("3", "task_delegate"),
   ("4", "schedule_meeting"), ("5", "my_tasks")]

/-- `CONFIRMATIONS`. -/
def confirmationsTable : List (String × Bool) :=
  [("כן", true), ("לא", false), ("yes", true), ("no", false),
   ("קיבלתי", true), ("לא יכול", false), ("מאשר", true)]

/-- `CANCEL_KEYWORDS`. -/
def cancelKeywords : List String := ["ביטול", "בטל", "cancel", "חזור"]

/-- First-match lookup in a literal command table. -/
def tblLookup (tbl : List (String × String)) (k : String) : Option String :=
  match tbl.find? (fun p => p.1 == k) with
  | some p => some p.2
  | none => none

/-- `get_command`: Hebrew exact, then English case-insensitive, then menu
selections; empty input is unrecognized. -/
def get_command (text : String) : Option String :=
  if text == "" then none else
  let cleaned := pyStrip text
  match tblLookup hebrewCommands cleaned with
  | some c => some c
  | none =>
      match tblLookup englishCommands (strLower cleaned) with
      | some c => some c
      | none => tblLookup menuSelections cleaned

/-- `is_cancel`: membership of the stripped text (case-folded or raw) in the
cancel keyword set. -/
def is_cancel (text : String) : Bool :=
  if text == "" then false
  else cancelKeywords.contains (strLower (pyStrip text)) || cancelKeywords.contains (pyStrip text)

/-- `get_confirmation`: the yes/no resolver (`true`/`false`/unrecognized). -/
def get_confirmation (text : String) : Option Bool :=
  if text == "" then none else
  let cleaned := pyStrip text
  match confirmationsTable.find? (fun p => p.1 == cleaned) with
  | some p => some p.2
  | none =>
      match confirmationsTable.find? (fun p => p.1 == strLower cleaned) with
      | some p => some p.2
      | none => none

/-! ## Regex fallback extractor (src/services/voice_service.py) -/

/-- Priority keyword patterns, in the dictionary's iteration order. -/
def priorityPatterns : List (String × List String) :=
  [("urgent", ["urgent", "urgently", "asap", "immediately", "critical"]),
   ("high", ["important", "high priority", "crucial", "essential"]),
   ("low", ["low priority", "whenever", "no rush", "not urgent", "eventually"])]

/-- The priority level assigned by `extract_task_from_transcript`. -/
def extractPriority (text : String) : String :=
  match priorityPatterns.find? (fun p => wordAltSearch p.2 text) with
  | some p => p.1
  | none => "medium"

/-- Date keyword patterns with their target dates, in iteration order
(note: `\btomorrow\b` precedes `\bday after tomorrow\b`, so the latter is
shadowed, exactly as in the source). -/
def dateKeywordTargets (today : Date) : List (String × Date) :=
  [("today", today), ("tomorrow", addDays today 1),
   ("day after tomorrow", addDays today 2), ("next week", addDays today 7),
   ("next monday", nextWeekdayFrom today 0), ("next tuesday", nextWeekdayFrom today 1),
   ("next wednesday", nextWeekdayFrom today 2), ("next thursday", nextWeekdayFrom today 3),
   ("next friday", nextWeekdayFrom today 4), ("next saturday", nextWeekdayFrom today 5),
   ("next sunday", nextWeekdayFrom today 6)]
where
  /-- `_next_weekday`: next strict occurrence of a weekday (Monday = 0). -/
  nextWeekdayFrom (d : Date) (wd : Nat) : Date :=
    let w := weekdayMon d
    let ahead := if wd > w then wd - w else wd + 7 - w
    addDays d ahead

/-- The `due_date` slot of `extract_task_from_transcript`: keyword dates
first, then a raw (unvalidated) ISO literal, then a validated `D/M/YYYY`. -/
def extractDueDate (today : Date) (text : String) : JVal :=
  match (dateKeywordTargets today).find? (fun p => wordAltSearch [p.1] text) with
  | some p => .str (isoDate p.2)
  | none =>
      match searchIsoDate false text.toList with
      | some isoStr => .str isoStr
      | none =>
          match searchSlashDate false text.toList with
          | some (d, m, y) =>
              if 1 ≤ m ∧ m ≤ 12 ∧ 1 ≤ d ∧ d ≤ daysInMonth y m ∧ 1 ≤ y then
                .str (isoDate ⟨y, m, d⟩)
              else .null
          | none => .null

/-- One `re.sub("^(alt|...)<tail>", "", t, re.IGNORECASE)` filler removal:
alternatives in pattern order, each requiring at least one tail character
(`tail` is "whitespace" or "colon-or-whitespace"), consumed greedily. -/
def dropFillerOnce (alts : List String) (colonTail : Bool) (t : List Char) : List Char :=
  let tailChar := fun c => Char.isWhitespace c || (colonTail && c == ':')
  let rec firstFit : List String → Option (List Char)
    | [] => none
    | a :: more =>
        match litAtCI a.toList t with
        | some rest =>
            match rest with
            | c :: _ =>
                if tailChar c then some (rest.dropWhile tailChar) else firstFit more
            | [] => firstFit more
        | none => firstFit more
  (firstFit alts).getD t

/-- The four leading-filler removals of `extract_task_from_transcript`,
applied in source order. -/
def dropFillers (t : List Char) : List Char :=
  let t1 := dropFillerOnce ["remind me to", "remind me", "please remind me to"] false t
  let t2 := dropFillerOnce ["i need to", "i have to", "i want to", "i should"] false t1
  let t3 := dropFillerOnce ["create a task to", "add a task to", "add task"] false t2
  dropFillerOnce ["task", "note", "reminder"] true t3

/-- The tail of the title extraction: truncate to 80 (77 plus an
ellipsis), and fall back to the first 80 characters of the input when the
stripped cut came out empty. -/
def clampTitle (text t : String) : String :=
  let t := if t.length > 80 then strTake t 77 ++ "..." else t
  if t.isEmpty then strTake text 80 else t

/-- The title slot of `extract_task_from_transcript`: strip fillers, cut at
the first sentence boundary, strip, truncate to 80 (77 plus an ellipsis),
and fall back to the first 80 characters of the input when empty. -/
def extractTitle (text : String) : String :=
  clampTitle text (pyStrip ((dropFillers text.toList).takeWhile
    (fun c => c != '.' && c != '!' && c != '?' && c != '\n')).asString)

/-- `extract_task_from_transcript`: the deterministic keyword fallback
parser; `none` models the `None` return on blank input. -/
def extract_task_from_transcript (today : Date) (transcript : String) : Option JMap :=
  if (pyStrip transcript).isEmpty then none else
  let text := pyStrip transcript
  some [("title", .str (extractTitle text)),
        ("description", .str text),
        ("due_date", extractDueDate today text),
        ("priority", .str (extractPriority text))]

/-! ## Smart parse service (src/services/smart_parse_service.py) -/

/-- `_extract_hebrew_date`: keyword and weekday patterns over the lowered
text (plain substring checks, so e.g. the tomorrow keyword also fires
inside the day-after-tomorrow word, exactly as in the source). -/
def hebrewDate (today : Date) (text : String) : Option String :=
  let lower := strLower text
  if strContains lower "מחר" || strContains lower "למחר" then
    some (isoDate (addDays today 1))
  else if strContains lower "היום" then some (isoDate today)
  else if strContains lower "מחרתיים" then some (isoDate (addDays today 2))
  else
    let dayMap : List (String × Nat) :=
      [("ראשון", 6), ("שני", 0), ("שלישי", 1), ("רביעי", 2),
       ("חמישי", 3), ("שישי", 4), ("שבת", 5)]
    match dayMap.find? (fun p =>
        strContains lower ("יום " ++ p.1) || strContains lower ("ביום " ++ p.1)) with
    | some p =>
        let ahead := (p.2 + 7 - weekdayMon today) % 7
        let ahead := if ahead == 0 then 7 else ahead
        some (isoDate (addDays today ahead))
    | none => none

/-- Try the `(\d{1,2})[:.](\d{2})` tail after a matched time marker, with
the greedy two-digit hour backtracking to one digit. -/
def hmTailHere (r : List Char) : Option String :=
  let tryHour : List Char → List Char → Option String := fun hs rest =>
    match rest with
    | c :: r3 =>
        if c == ':' || c == '.' then
          let (ms, _) := takeDigits 2 r3
          if ms.length == 2 then
            match digitsVal hs with
            | some h => some (pad2 h ++ ":" ++ ms.asString)
            | none => none
          else none
        else none
    | [] => none
  let (ds, r2) := takeDigits 2 r
  if ds.isEmpty then none else
  match tryHour ds r2 with
  | some out => some out
  | none =>
      if ds.length == 2 then tryHour (ds.take 1) (ds.drop 1 ++ r2) else none

/-- Pattern `(?:בשעה|ב-?)\s*(\d{1,2})[:.](\d{2})` at one position. -/
def hebTime1Here (s : List Char) : Option String :=
  let withPre : List Char → Option String := fun pre =>
    match litAt pre s with
    | some r => hmTailHere (r.dropWhile Char.isWhitespace)
    | none => none
  match withPre "בשעה".toList with
  | some out => some out
  | none =>
      match withPre "ב-".toList with
      | some out => some out
      | none => withPre "ב".toList

/-- First match of the first Hebrew time pattern. -/
def hebTime1 : List Char → Option String
  | [] => none
  | c :: rest =>
      match hebTime1Here (c :: rest) with
      | some out => some out
      | none => hebTime1 rest

/-- Pattern `(?:בשעה|ב-)\s*(\d{1,2})(?:\s|$|,)` at one position, returning
the captured hour. -/
def hebTime2Here (s : List Char) : Option Nat :=
  let tailOk : List Char → Bool := fun rest =>
    match rest with
    | [] => true
    | c :: _ => Char.isWhitespace c || c == ','
  let fromRest : List Char → Option Nat := fun r =>
    let r := r.dropWhile Char.isWhitespace
    let (ds, r2) := takeDigits 2 r
    if ds.isEmpty then none else
    if tailOk r2 then digitsVal ds
    else if ds.length == 2 && tailOk (ds.drop 1 ++ r2) then digitsVal (ds.take 1)
    else none
  match litAt "בשעה".toList s with
  | some r => fromRest r
  | none =>
      match litAt "ב-".toList s with
      | some r => fromRest r
      | none => none

/-- First match of the second Hebrew time pattern. -/
def hebTime2 : List Char → Option Nat
  | [] => none
  | c :: rest =>
      match hebTime2Here (c :: rest) with
      | some h => some h
      | none => hebTime2 rest

/-- Pattern `שעה\s+(\d{1,2})[:.](\d{2})` at one position. -/
def hebTime3Here (s : List Char) : Option String :=
  match litAt "שעה".toList s with
  | some r =>
      match r with
      | c :: _ =>
          if Char.isWhitespace c then hmTailHere (r.dropWhile Char.isWhitespace)
          else none
      | [] => none
  | none => none

/-- First match of the third Hebrew time pattern. -/
def hebTime3 : List Char → Option String
  | [] => none
  | c :: rest =>
      match hebTime3Here (c :: rest) with
      | some out => some out
      | none => hebTime3 rest

/-- `_extract_hebrew_time`: the three patterns in order; a second-pattern
hour above 23 falls through to the third pattern. -/
def hebrewTime (text : String) : Option String :=
  match hebTime1 text.toList with
  | some out => some out
  | none =>
      match hebTime2 text.toList with
      | some h =>
          if h ≤ 23 then some (pad2 h ++ ":00") else hebTime3 text.toList
      | none => hebTime3 text.toList

/-- The GPT backend (`_call_openai` per system prompt), as an oracle over
which every theorem quantifies: `none` is any unavailability, HTTP or JSON
failure; `some v` is the parsed JSON of a successful call. -/
structure Oracle where
  autoP : String → Option JVal
  taskP : String → Option JVal
  meetingP : String → Option JVal

/-- The regex-fallback tail of `parse_task_text`. -/
def taskFallback (today : Date) (text : String) : Option JMap :=
  match extract_task_from_transcript today text with
  | some fb =>
      some [("title", jgetD fb "title" (.str (strTake text 80))),
            ("due_date", jgetD fb "due_date" .null),
            ("due_time", .null),
            ("priority", jgetD fb "priority" (.str "medium")),
            ("assignee_name", .null)]
  | none =>
      some [("title", .str (strTake text 80)), ("due_date", .null),
            ("due_time", .null), ("priority", .str "medium"),
            ("assignee_name", .null)]

/-- `parse_task_text`: GPT result when it carries a truthy title, else the
regex fallback; `none` models the uncaught `AttributeError` when the GPT
JSON is truthy but not an object. -/
def parse_task_text (today : Date) (o : Oracle) (text : String) : Option JMap :=
  match o.taskP text with
  | some r =>
      if r.truthy then
        match r with
        | .obj m =>
            if (jgetD m "title" .null).truthy then
              some [("title", jgetD m "title" (.str (strTake text 80))),
                    ("due_date", jgetD m "due_date" .null),
                    ("due_time", jgetD m "due_time" .null),
                    ("priority", jgetD m "priority" (.str "medium")),
                    ("assignee_name", jgetD m "assignee_name" .null)]
            else taskFallback today text
        | _ => none
      else taskFallback today text
  | none => taskFallback today text

/-- The local-extraction fallback tail of `parse_meeting_text`. -/
def meetingFallback (today : Date) (text : String) : Option JMap :=
  some [("title", .str (strTake text 80)),
        ("date", match hebrewDate today text with | some d => .str d | none => .null),
        ("time", match hebrewTime text with | some t => .str t | none => .null),
        ("location", .null), ("participants", .arr [])]

/-- `parse_meeting_text`: GPT result (date/time holes filled from the local
Hebrew extractors) when it carries a truthy title, else full local fallback. -/
def parse_meeting_text (today : Date) (o : Oracle) (text : String) : Option JMap :=
  match o.meetingP text with
  | some r =>
      if r.truthy then
        match r with
        | .obj m =>
            if (jgetD m "title" .null).truthy then
              let parsed : JMap :=
                [("title", jgetD m "title" (.str (strTake text 80))),
                 ("date", jgetD m "date" .null), ("time", jgetD m "time" .null),
                 ("location", jgetD m "location" .null),
                 ("participants", jgetD m "participants" (.arr []))]
              let parsed :=
                if (jgetD parsed "date" .null).truthy then parsed
                else match hebrewDate today text with
                  | some ds => jset parsed "date" (.str ds)
                  | none => parsed
              let parsed :=
                if (jgetD parsed "time" .null).truthy then parsed
                else match hebrewTime text with
                  | some ts => jset parsed "time" (.str ts)
                  | none => parsed
              some parsed
            else meetingFallback today text
        | _ => none
      else meetingFallback today text
  | none => meetingFallback today text

/-- `MEETING_KEYWORDS`. -/
def meetingKeywords : List String :=
  ["פגישה", "פגישות", "תיאום", "לתאם", "תאם", "להיפגש", "meeting"]

/-- `_has_meeting_keywords`: any keyword occurs in the lowered text. -/
def has_meeting_keywords (text : String) : Bool :=
  meetingKeywords.any (fun kw => strContains (strLower text) kw)

/-- The treat-as-task fallback tail of `parse_free_text`. -/
def freeFallback (today : Date) (o : Oracle) (text : String) : Option JMap :=
  match parse_task_text today o text with
  | some p => some (jset p "type" (.str "task"))
  | none => none

/-- `parse_free_text`: the auto-detecting composite. Meeting keywords take
the fast path straight to the meeting extractor; otherwise the auto GPT
prompt decides, falling back to the task extractor. -/
def parse_free_text (today : Date) (o : Oracle) (text : String) : Option JMap :=
  if has_meeting_keywords text then
    match parse_meeting_text today o text with
    | some p => some (jset p "type" (.str "meeting"))
    | none => none
  else
    match o.autoP text with
    | some r =>
        if r.truthy then
          match r with
          | .obj m =>
              if jgetD m "type" (.str "task") == .str "meeting" then
                some [("type", .str "meeting"),
                      ("title", jgetD m "title" (.str (strTake text 80))),
                      ("date", jgetD m "date" .null), ("time", jgetD m "time" .null),
                      ("location", jgetD m "location" .null),
                      ("participants", jgetD m "participants" (.arr []))]
              else
                some [("type", .str "task"),
                      ("title", jgetD m "title" (.str (strTake text 80))),
                      ("due_date", jgetD m "due_date" .null),
                      ("due_time", jgetD m "due_time" .null),
                      ("priority", jgetD m "priority" (.str "medium")),
                      ("assignee_name", jgetD m "assignee_name" .null)]
          | _ => none
        else freeFallback today o text
    | none => freeFallback today o text

/-! ## Relational store rows (src/database.py schema) and entity services -/

/-- A row of `tasks` (SQLite is dynamically typed, so slot-derived columns
are `JVal`; text-affinity coercion of non-text values is not modelled). -/
structure TaskRow where
  id : Nat
  user_id : Nat
  title : JVal
  description : JVal
  task_type : JVal
  status : String
  priority : JVal
  category : JVal
  due_date : JVal
  due_time : JVal
  created_via : JVal
  voice_transcript : JVal
deriving DecidableEq, Repr

/-- A row of `reminders`; `scheduled_time` lives on the minute timeline. -/
structure ReminderRow where
  task_id : Nat
  user_id : Nat
  reminder_type : String
  scheduled_time : Int
  status : String
  message_template : String
deriving DecidableEq, Repr

/-- A row of `meetings`. -/
structure MeetingRow where
  id : Nat
  task_id : Nat
  organizer_id : Nat
  title : JVal
  description : JVal
  meeting_date : JVal
  start_time : JVal
  end_time : JVal
  location : JVal
  status : String
deriving DecidableEq, Repr

/-- A row of `delegated_tasks`. -/
structure DelegRow where
  task_id : JVal
  delegator_id : Nat
  assignee_phone : JVal
  assignee_name : JVal
  status : String
deriving DecidableEq, Repr

/-- A row of `meeting_participants`. -/
structure ParticipantRow where
  meeting_id : JVal
  phone_number : String
  name : JVal
  status : String
deriving DecidableEq, Repr

/-- The relational store (most recent insert first in each list). -/
structure Db where
  tasks : List TaskRow
  reminders : List ReminderRow
  meetings : List MeetingRow
  delegations : List DelegRow
  participants : List ParticipantRow
  nextTaskId : Nat
  nextMeetingId : Nat

/-- The empty store with fresh ids starting at 1 (SQLite AUTOINCREMENT). -/
def Db.empty : Db := ⟨[], [], [], [], [], 1, 1⟩

/-- A value satisfies `col IN (...)` under SQLite semantics: NULL passes a
CHECK (unknown is not a violation), non-members fail. -/
def inOrNull (v : JVal) (allowed : List String) : Bool :=
  v == .null || allowed.any (fun s => v == .str s)

/-- `task_service.create_task`: insert a task row; the `None` return covers
the schema rejections (NOT NULL title, the task_type / priority /
created_via CHECK constraints), which surface as a caught exception. -/
def create_task (db : Db) (u : Nat) (data : JMap) : Db × Option Nat :=
  let title := jgetD data "title" (.str "")
  let ttype := jgetD data "task_type" (.str "today")
  let pr := jgetD data "priority" (.str "medium")
  let cv := jgetD data "created_via" (.str "web")
  if title == .null ∨
     ¬inOrNull ttype ["today", "scheduled", "recurring", "someday", "delegated", "meeting"] ∨
     ¬inOrNull pr ["low", "medium", "high", "urgent"] ∨
     ¬inOrNull cv ["whatsapp_text", "whatsapp_voice", "web", "api"] then
    (db, none)
  else
    let row : TaskRow :=
      { id := db.nextTaskId, user_id := u, title := title,
        description := jgetD data "description" (.str ""), task_type := ttype,
        status := "pending", priority := pr,
        category := jgetD data "category" (.str "general"),
        due_date := jgetD data "due_date" .null,
        due_time := jgetD data "due_time" .null, created_via := cv,
        voice_transcript := jgetD data "voice_transcript" .null }
    ({ db with tasks := row :: db.tasks, nextTaskId := db.nextTaskId + 1 },
     some db.nextTaskId)

/-- `meeting_service.create_meeting`: the companion task row of type
`meeting` is inserted first, then the meeting row referencing its id, and
both are committed together; any failure (`fail` injects the exception
path, a NULL title the NOT NULL rejection) commits neither row and yields
`None`. -/
def create_meeting (db : Db) (org : Nat) (data : JMap) (fail : Bool) :
    Db × Option Nat :=
  if fail ∨ jgetD data "title" (.str "") == .null then (db, none)
  else
    let tid := db.nextTaskId
    let task : TaskRow :=
      { id := tid, user_id := org, title := jgetD data "title" (.str ""),
        description := jgetD data "description" (.str ""),
        task_type := .str "meeting", status := "pending",
        priority := .str "medium", category := .str "general",
        due_date := jgetD data "meeting_date" .null,
        due_time := jgetD data "start_time" .null,
        created_via := .str "web", voice_transcript := .null }
    let mid := db.nextMeetingId
    let meeting : MeetingRow :=
      { id := mid, task_id := tid, organizer_id := org,
        title := jgetD data "title" (.str ""),
        description := jgetD data "description" (.str ""),
        meeting_date := jgetD data "meeting_date" .null,
        start_time := jgetD data "start_time" .null,
        end_time := jgetD data "end_time" .null,
        location := jgetD data "location" (.str ""), status := "scheduled" }
    ({ db with tasks := task :: db.tasks, meetings := meeting :: db.meetings,
               nextTaskId := tid + 1, nextMeetingId := mid + 1 },
     some mid)

/-- `meeting_service.add_participant`: insert a pending participant row. -/
def add_participant (db : Db) (meetingId : JVal) (phone : String) (name : JVal) : Db :=
  { db with participants :=
      { meeting_id := meetingId, phone_number := phone, name := name,
        status := "pending" } :: db.participants }

/-- `task_service.complete_task`: mark one task completed. -/
def complete_task (db : Db) (taskId : Nat) : Db :=
  { db with tasks := db.tasks.map fun t =>
      if t.id == taskId then { t with status := "completed" } else t }

/-- The due datetime of a task row on the minute timeline, with the
`09:00` default used by the reminder service when no due time is stored. -/
def taskDueMinutes (t : TaskRow) : Int :=
  let d : Date :=
    match t.due_date with
    | .str s => (parseIsoDate s).getD ⟨1970, 1, 1⟩
    | _ => ⟨1970, 1, 1⟩
  let tm : Nat :=
    match t.due_time with
    | .str s => (parseTimeHM s).getD 540
    | _ => 540
  (daysFromCivil d : Int) * 1440 + tm

/-- Modelled from the spec: `create_single_reminder` is imported from
`services.reminder_service` by `src/bot/handlers.py` and called at the
task flow's reminder-selection step, but its definition is absent from
the sources. Per the spec it "creates exactly one reminder at the chosen
offset" with "scheduled_time = due_datetime − 60 minutes" for the one-hour
choice; as in `create_reminders_for_task`, a task with no stored due time
is due at 09:00. -/
def create_single_reminder (db : Db) (taskId : Nat) (minutes : Nat) : Db :=
  match db.tasks.find? (fun t => t.id == taskId) with
  | none => db
  | some t =>
      { db with reminders :=
          { task_id := taskId, user_id := t.user_id,
            reminder_type := "before_task",
            scheduled_time := taskDueMinutes t - (minutes : Int),
            status := "pending",
            message_template := "Reminder" } :: db.reminders }

/-- `reminder_service.create_reminders_for_task`: the four fixed offsets
(1 day, 1 hour, 15 minutes, at the due time), skipping times already in
the past; unparseable stored dates abort with no insert (the caught
exception path). -/
def create_reminders_for_task (nowMin : Int) (db : Db) (taskId : Nat) : Db :=
  match db.tasks.find? (fun t => t.id == taskId) with
  | none => db
  | some t =>
      if ¬t.due_date.truthy then db
      else
        match t.due_date with
        | .str s =>
            match parseIsoDate s with
            | none => db
            | some d =>
                let tm : Option Nat :=
                  if ¬t.due_time.truthy then some 540
                  else
                    match t.due_time with
                    | .str s2 => parseTimeHM s2
                    | _ => none
                match tm with
                | none => db
                | some tmv =>
                    let dueMin : Int := (daysFromCivil d : Int) * 1440 + tmv
                    let offsets : List Int := [1440, 60, 15, 0]
                    offsets.foldl
                      (fun acc off =>
                        let sched := dueMin - off
                        if sched ≤ nowMin then acc
                        else { acc with reminders :=
                          { task_id := taskId, user_id := t.user_id,
                            reminder_type := "before_task",
                            scheduled_time := sched, status := "pending",
                            message_template := "Reminder" } :: acc.reminders })
                      db
        | _ => db

/-! ## Outbound messages, system state, environment -/

/-- An outbound send, one constructor per `interactive_service` entry point
the handlers call (the template/fallback rendering is the channel's
concern, outside the core). -/
inductive Out where
  | text (dst body : String)
  | voiceConfirm (dst transcript : String)
  | dateSelect (dst : String)
  | timeSelect (dst : String)
  | taskConfirm (dst summary : String)
  | reminderSelect (dst : String)
  | delegateAsk (dst : String)
  | dateFallback (dst : String)
  | meetingConfirm (dst summary : String)
  | delegationInvite (dst body : String)
  | meetingInvite (dst body : String)
deriving DecidableEq, Repr

/-- The full system state of one turn: relational store, conversation
table, the turn's clock stamp, and the outbound sends so far (in order). -/
structure St where
  db : Db
  conv : ConvTable
  now : Nat
  out : List Out

/-- Append one outbound send. -/
def emit (st : St) (o : Out) : St :=
  { st with out := st.out ++ [o] }

/-- `ConversationFlow.set_flow` from inside a handler. -/
def setFlowSt (st : St) (u : Nat) (f : JVal) (d : JMap) : St :=
  { st with conv := set_flow st.conv u f (some d) st.now }

/-- `ConversationFlow.clear_flow` from inside a handler. -/
def clearFlowSt (st : St) (u : Nat) : St :=
  { st with conv := clear_flow st.conv u st.now }

/-- A handler outcome: `.ok` is a normal return, `.error` an exception
escaping the handler, carrying the side effects already performed. -/
abbrev HRes := Except St St

/-- Stands for `Config.APP_URL`. -/
def dashboardUrl : String := "APP_URL"

/-- The generic apology text. -/
def errText : String := "❌ אירעה שגיאה. נסה שוב."

/-- `NEXT_PROMPT`. -/
def nextPromptMsg : String :=
  "✏️ תכתוב או תקליט הודעה עם המשימה או הפגישה הבאה 🎤\n\n📋 כל המשימות: "
    ++ dashboardUrl ++ "/tasks"

/-- `_send_next_prompt`. -/
def sendNextPrompt (st : St) (phone : String) : St :=
  emit st (.text phone nextPromptMsg)

/-- The external collaborators and the turn's clock, fixed for one turn. -/
structure Env where
  today : Date
  nowMin : Int
  ai : Oracle
  inviteOk : String → Bool
  meetingFail : Bool

/-- Python `str(v)` as used in the handlers' f-strings (container element
rendering elided: no claim inspects a rendered container). -/
def pyStr : JVal → String
  | .null => "None"
  | .bool true => "True"
  | .bool false => "False"
  | .num n => toString n
  | .str s => s
  | .arr _ => "[...]"
  | .obj _ => "\x7b...\x7d"

/-- Python `", ".join(v)` on a truthy value: string lists join their
elements, strings their characters, dicts their keys; anything else (or a
non-string element) raises, modelled by `none`. -/
def joinComma : JVal → Option String
  | .arr xs =>
      match xs.mapM (fun x => match x with | .str s => some s | _ => none) with
      | some ss => some (String.intercalate ", " ss)
      | none => none
  | .str s => some (String.intercalate ", " (s.toList.map (fun c => String.mk [c])))
  | .obj m => some (String.intercalate ", " (m.map (fun p => p.1)))
  | _ => none

/-- `_format_display_date`: `YYYY-MM-DD` to `DD/MM/YYYY`; falsy input shows
the not-specified label, an unparseable string is shown as-is, and a truthy
non-string raises (`TypeError` is not caught there), modelled by `none`. -/
def format_display_date (v : JVal) : Option String :=
  if ¬v.truthy then some "לא צוין"
  else
    match v with
    | .str s =>
        match parseIsoDate s with
        | some d => some (pad2 d.d ++ "/" ++ pad2 d.m ++ "/" ++ pad4 d.y)
        | none => some s
    | _ => none

/-- `_reminder_text`. -/
def reminder_text : Option Nat → String
  | none => "ללא תזכורת"
  | some m =>
      if m ≥ 1440 then "יום לפני"
      else if m ≥ 120 then "שעתיים לפני"
      else if m ≥ 60 then "שעה לפני"
      else toString m ++ " דקות לפני"

/-- `_build_task_confirm_summary`. -/
def build_task_confirm_summary (p : JMap) : Option String :=
  match format_display_date (jgetD p "due_date" .null) with
  | none => none
  | some dd =>
      let title := jgetD p "title" (.str "")
      let dueTime := jgetD p "due_time" (.str "")
      let priText :=
        match jgetD p "priority" (.str "medium") with
        | .str "low" => "🟢 נמוכה"
        | .str "medium" => "🟡 רגילה"
        | .str "high" => "🟠 גבוהה"
        | .str "urgent" => "🔴 דחוף"
        | _ => "🟡 רגילה"
      let timeStr := if dueTime.truthy then "\n🕐 שעה: " ++ pyStr dueTime else ""
      let assignee := jgetD p "assignee_name" .null
      let assigneeStr := if assignee.truthy then "\n👤 להעביר: " ++ pyStr assignee else ""
      some ("📋 *זיהיתי:*\n\n📌 *" ++ pyStr title ++ "*\n📅 תאריך: " ++ dd ++ timeStr
            ++ "\n⚡ עדיפות: " ++ priText ++ assigneeStr ++ "\n\nהכל נכון?")

/-- `_build_meeting_confirm_summary`. -/
def build_meeting_confirm_summary (p : JMap) : Option String :=
  match format_display_date (jgetD p "date" .null) with
  | none => none
  | some md =>
      let title := jgetD p "title" (.str "")
      let timeStr := jgetD p "time" (.str "לא צוין")
      let locv := jgetD p "location" (.str "לא צוין")
      let loc := if locv.truthy then locv else .str "לא צוין"
      let participants := jgetD p "participants" (.arr [])
      let partsStr? : Option String :=
        if participants.truthy then
          match joinComma participants with
          | some j => some ("\n👥 משתתפים: " ++ j)
          | none => none
        else some ""
      match partsStr? with
      | none => none
      | some partsStr =>
          some ("📋 *זיהיתי פגישה:*\n\n📌 נושא: *" ++ pyStr title ++ "*\n🗓️ תאריך: "
                ++ md ++ "\n🕐 שעה: " ++ pyStr timeStr ++ "\n📍 מיקום: " ++ pyStr loc
                ++ partsStr ++ "\n\nלאשר?")

/-! ## Date, time, phone and contact resolvers (src/bot/handlers.py) -/

/-- One `strptime` day-month-year format with a fixed separator. -/
def parseDMYsep (sep : Char) (s : String) : Option Date :=
  match strSplit s sep with
  | [ds, ms, ys] =>
      match digitsVal ds.toList, digitsVal ms.toList, digitsVal ys.toList with
      | some d, some m, some y =>
          if ds.length ≤ 2 ∧ ms.length ≤ 2 ∧ ys.length ≤ 4 ∧
             1 ≤ y ∧ 1 ≤ m ∧ m ≤ 12 ∧ 1 ≤ d ∧ d ≤ daysInMonth y m
          then some ⟨y, m, d⟩ else none
      | _, _, _ => none
  | _ => none

/-- One digit run of an allowed length followed by a `[/.\-]` separator,
greedy with backtracking; returns value and rest. -/
def numThenSep (lens : List Nat) (cs : List Char) : Option (Nat × List Char) :=
  lens.firstM fun len =>
    let (ds, r) := takeDigits len cs
    if ds.length == len then
      match r with
      | c :: r2 =>
          if c == '/' || c == '.' || c == '-' then
            match digitsVal ds with
            | some v => some (v, r2)
            | none => none
          else none
      | [] => none
    else none

/-- The anchored regex `^(\d{1,2})[/.\-](\d{1,2})[/.\-](\d{2,4})$` with the
two-digit-year-plus-2000 rule and `date()` validation. -/
def regexDMY (s : String) : Option Date :=
  match numThenSep [2, 1] s.toList with
  | none => none
  | some (d, r1) =>
      match numThenSep [2, 1] r1 with
      | none => none
      | some (m, r2) =>
          let fits := fun (len : Nat) =>
            let (ys, r3) := takeDigits len r2
            if ys.length == len ∧ r3 == [] then digitsVal ys else none
          match [4, 3, 2].firstM fits with
          | none => none
          | some y0 =>
              let y := if y0 < 100 then y0 + 2000 else y0
              if 1 ≤ y ∧ 1 ≤ m ∧ m ≤ 12 ∧ 1 ≤ d ∧ d ≤ daysInMonth y m
              then some ⟨y, m, d⟩ else none

/-- The anchored regex `^(\d{1,2})[/.\-](\d{1,2})$` resolved against the
next future occurrence (this year, else next year), `date()`-validated. -/
def regexDM (today : Date) (s : String) : Option Date :=
  match numThenSep [2, 1] s.toList with
  | none => none
  | some (d, r1) =>
      let fits := fun (len : Nat) =>
        let (ds2, r2) := takeDigits len r1
        if ds2.length == len ∧ r2 == [] then digitsVal ds2 else none
      match [2, 1].firstM fits with
      | none => none
      | some m =>
          if 1 ≤ m ∧ m ≤ 12 ∧ 1 ≤ d ∧ d ≤ daysInMonth today.y m then
            let cand : Date := ⟨today.y, m, d⟩
            if daysFromCivil cand < daysFromCivil today then
              if d ≤ daysInMonth (today.y + 1) m then some ⟨today.y + 1, m, d⟩
              else none
            else some cand
          else none

/-- `_parse_date_text`: today/tomorrow keywords, the four `strptime`
formats in source order, then the two anchored regex fallbacks. -/
def parse_date_text (today : Date) (text : String) : Option String :=
  let t := pyStrip text
  if t.isEmpty then none
  else
    let low := strLower t
    if low == "היום" || low == "today" then some (isoDate today)
    else if low == "מחר" || low == "tomorrow" then some (isoDate (addDays today 1))
    else
      match parseDMYsep '/' t with
      | some d => some (isoDate d)
      | none =>
          match parseIsoDate t with
          | some d => some (isoDate d)
          | none =>
              match parseDMYsep '.' t with
              | some d => some (isoDate d)
              | none =>
                  match parseDMYsep '-' t with
                  | some d => some (isoDate d)
                  | none =>
                      match regexDMY t with
                      | some d => some (isoDate d)
                      | none =>
                          match regexDM today t with
                          | some d => some (isoDate d)
                          | none => none

/-- `_resolve_date`: quick-pick tokens (action id or text), the `custom`
marker, or a free-form parse. -/
def resolve_date (today : Date) (text : String) (aid : Option String) :
    Option String :=
  let a := aid.getD ""
  let t := pyStrip text
  if a == "date_today" || t == "1" || t == "היום" || t == "📆 היום" then
    some (isoDate today)
  else if a == "date_tomorrow" || t == "2" || t == "מחר" || t == "📆 מחר" then
    some (isoDate (addDays today 1))
  else if a == "date_this_week" || t == "3" || t == "סוף השבוע" || t == "📆 סוף השבוע" then
    let ahead := (4 + 7 - weekdayMon today) % 7
    let ahead := if ahead == 0 then 7 else ahead
    some (isoDate (addDays today ahead))
  else if a == "date_custom" || t == "4" || t == "תאריך אחר" || t == "✏️ תאריך אחר" then
    some "custom"
  else parse_date_text today t

/-- `_resolve_time`: a `time_HH` action id or an `H:MM`-shaped text. -/
def resolve_time (text : String) (aid : Option String) : Option String :=
  let a := aid.getD ""
  let t := pyStrip text
  if strStarts a "time_" then some (strDrop a 5 ++ ":00")
  else
    match strSplit t ':' with
    | [hs, ms] =>
        if hs.toList ≠ [] ∧ hs.toList.all Char.isDigit ∧ hs.length ≤ 2 ∧
           ms.length == 2 ∧ ms.toList.all Char.isDigit
        then some t else none
    | _ => none

/-- `_normalize_phone`: canonical international form; the branches in
source order (local leading zero becomes the country code). -/
def normalize_phone (text : String) : Option String :=
  if text == "" then none
  else
    let cleaned := pyStrip text
    let digits :=
      if strStarts cleaned "+" then "+" ++ filterDigits (strDrop cleaned 1)
      else filterDigits cleaned
    if digits == "" then none
    else if strStarts digits "+972" ∧ digits.length ≥ 13 then some digits
    else if strStarts digits "972" ∧ digits.length ≥ 12 then some ("+" ++ digits)
    else if strStarts digits "0" ∧ digits.length == 10 then
      some ("+972" ++ strDrop digits 1)
    else if digits.length == 9 ∧ strStarts digits "5" then some ("+972" ++ digits)
    else if digits.length ≥ 10 then
      if ¬strStarts digits "+" then some ("+" ++ digits) else some digits
    else none

/-- The characters after the last colon of a line, if any
(`line.rfind(":")`). -/
def lastColonSplit (s : String) : Option String :=
  let cs := s.toList
  if cs.contains ':' then
    some ((cs.reverse.takeWhile (fun c => c ≠ ':')).reverse.asString)
  else none

/-- `_parse_vcard`: scan the card's lines for `FN:` and `TEL` entries
(later `TEL` lines overwrite earlier ones; `splitlines` is modelled by
newline splitting). -/
def parse_vcard (text : String) : Option String × Option String :=
  if ¬strContains text "BEGIN:VCARD" then (none, none)
  else
    (strSplit text '\n').foldl
      (fun acc line =>
        let line := pyStrip line
        if strStarts (strUpper line) "FN:" then (acc.1, some (pyStrip (strDrop line 3)))
        else if strStarts (strUpper line) "TEL" then
          match lastColonSplit line with
          | some raw =>
              let raw := pyStrip raw
              if raw ≠ "" then (normalize_phone raw, acc.2) else acc
          | none => acc
        else acc)
      (none, none)

/-- The typed-phone gate `re.match(r"^[\d\+\-\s\(\)]{7,}$", s)`. -/
def phoneShape (s : String) : Bool :=
  let cs := s.toList
  cs.length ≥ 7 && cs.all (fun c =>
    c.isDigit || c == '+' || c == '-' || Char.isWhitespace c || c == '(' || c == ')')

/-- `_build_gcal_link` (URL percent-escaping elided; the fallback covers
every raising path of the original `try`). -/
def build_gcal_link (title : JVal) (mdate : Date) (timeStr : JVal) (loc : JVal) :
    String :=
  let base := "https://calendar.google.com/calendar/render?action=TEMPLATE&text="
  let fallback :=
    let ymd := pad4 mdate.y ++ pad2 mdate.m ++ pad2 mdate.d
    base ++ pyStr title ++ "&dates=" ++ ymd ++ "/" ++ ymd
  let hm? : Option (Nat × Nat) :=
    match timeStr with
    | .str s =>
        if ¬s.isEmpty ∧ strContains s ":" then
          match strSplit s ':' with
          | hs :: ms :: _ =>
              match digitsVal hs.toList, digitsVal ms.toList with
              | some h, some mi => if h ≤ 23 ∧ mi ≤ 59 then some (h, mi) else none
              | _, _ => none
          | _ => none
        else some (9, 0)
    | v => if v.truthy then none else some (9, 0)
  match hm? with
  | none => fallback
  | some (h, mi) =>
      let fmt := fun (d : Date) (hh mm : Nat) =>
        pad4 d.y ++ pad2 d.m ++ pad2 d.d ++ "T" ++ pad2 hh ++ pad2 mm ++ "00"
      let endPart :=
        if h < 23 then fmt mdate (h + 1) mi else fmt (nextDay mdate) 0 mi
      base ++ pyStr title ++ "&dates=" ++ fmt mdate h mi ++ "/" ++ endPart
        ++ (if loc.truthy then "&location=" ++ pyStr loc else "")

/-- `_get_flow_prompt`: the pure current-step prompt of a flow, derived
from the flow name and data. -/
def get_flow_prompt (fname : JVal) (fd : JMap) : String :=
  if fname == .str "new_task" then "📝 תאר את המשימה בהודעה אחת:"
  else if fname == .str "new_meeting" then "📅 תאר את הפגישה בהודעה אחת:"
  else if fname == .str "delegate_inline" then "👤 שתף איש קשר מהטלפון 📱"
  else if fname == .str "create_task" then
    if (jget fd "title").isNone then "📝 מה המשימה?" else "📅 לאיזה תאריך?"
  else if fname == .str "delegate" then
    if (jget fd "task_title").isNone then "📝 מה המשימה שתרצה להעביר?"
    else if (jget fd "assignee").isNone then "👤 שתף איש קשר מהטלפון 📱"
    else "📅 עד מתי?"
  else if fname == .str "meeting" then
    if (jget fd "title").isNone then "📌 מה נושא הפגישה?"
    else if (jget fd "date").isNone then "📅 באיזה תאריך?"
    else if (jget fd "time").isNone then "🕐 באיזו שעה?"
    else "📍 היכן?"
  else "📝 מה תרצה לעשות?"

/-! ## Message handlers (src/bot/handlers.py) -/

/-- `WELCOME_MSG`. -/
def welcomeMsg : String :=
  "שלום! 👋\nהגעת למנהל המשימות האישי שלך.\n\n🎤 אתה יכול *להקליט הודעה* או *לכתוב* ואני אדאג לכל השאר:\n\n📅 *פגישה* - אמור עם מי, מתי ואיפה ואני כבר אתאם לך את הכל\n\n📝 *משימה* - אמור מה אתה צריך לבצע ומתי ואני אזכיר לך\n\n👥 *העברה* - אם יש מישהו שאתה רוצה שיבצע את המשימה, פשוט צרף את איש הקשר ואני כבר אתאם את כל הפרטים ואזכיר לך\n\nפשוט תקליט או תכתוב! 🎤"

/-- `_send_welcome`. -/
def sendWelcome (st : St) (phone : String) : St :=
  emit st (.text phone welcomeMsg)

/-- The describe-your-task prompt sent on entering the task flow. -/
def newTaskPrompt : String :=
  "📝 תאר את המשימה בהודעה אחת.\nלדוגמה: *להתקשר לרופא מחר ב-16:00*\n\nאפשר גם הודעה קולית 🎤"

/-- The describe-your-meeting prompt sent on entering the meeting flow. -/
def newMeetingPrompt : String :=
  "📅 תאר את הפגישה בהודעה אחת.\nלדוגמה: *פגישה עם יוסי מחר ב-14:00 בזום*\n\nאפשר גם הודעה קולית 🎤"

/-- `task_service.get_tasks` with the pending-status filter (most recent
first, matching the created-at descending order). -/
def get_tasks_pending (db : Db) (u : Nat) : List TaskRow :=
  db.tasks.filter (fun t => t.user_id == u && t.status == "pending")

/-- `task_service.get_today_tasks` (the SQL orders by due time and
priority; the claims are insensitive to the order, kept as stored). -/
def get_today_tasks (today : Date) (db : Db) (u : Nat) : List TaskRow :=
  db.tasks.filter (fun t => t.user_id == u && t.due_date == .str (isoDate today))

/-- `_show_tasks`. -/
def showTasks (st : St) (u : Nat) (phone : String) : St :=
  let tasks := get_tasks_pending st.db u
  if tasks.isEmpty then
    sendNextPrompt (emit st (.text phone "🎉 אין משימות פתוחות! אתה מעודכן. ✨")) phone
  else
    let icon := fun (s : String) =>
      if s == "pending" then "⏳" else if s == "in_progress" then "🔄"
      else if s == "completed" then "✅" else if s == "overdue" then "🔴" else "⏳"
    let fmtLine := fun (t : TaskRow) =>
      let due := if t.due_date.truthy then pyStr t.due_date else "---"
      icon t.status ++ " " ++ pyStr t.title ++ " | 📅 " ++ due ++ "\n"
    let more :=
      if tasks.length > 10 then
        ["\n...ועוד " ++ toString (tasks.length - 10) ++ " משימות"]
      else []
    let body := String.join
      (["📋 *המשימות שלך:*\n━━━━━━━━━━━━\n"] ++ (tasks.take 10).map fmtLine ++ more
        ++ ["\n📋 צפה בהכל: " ++ dashboardUrl ++ "/tasks"])
    sendNextPrompt (emit st (.text phone body)) phone

/-- `_show_meetings`. -/
def showMeetings (st : St) (u : Nat) (phone : String) : St :=
  let ms := st.db.meetings.filter (fun m => m.organizer_id == u && m.status == "scheduled")
  if ms.isEmpty then
    sendNextPrompt (emit st (.text phone "📅 אין פגישות מתוכננות.")) phone
  else
    let fmtLine := fun (m : MeetingRow) =>
      let loc := if m.location.truthy then " | 📍 " ++ pyStr m.location else ""
      "📌 " ++ pyStr m.title ++ " | 🗓️ " ++ pyStr m.meeting_date ++ " | 🕐 "
        ++ pyStr m.start_time ++ loc ++ "\n"
    let body := String.join
      (["📅 *הפגישות שלך:*\n━━━━━━━━━━━━\n"] ++ (ms.take 10).map fmtLine
        ++ ["\n📅 צפה בהכל: " ++ dashboardUrl ++ "/calendar"])
    sendNextPrompt (emit st (.text phone body)) phone

/-- `_handle_command`. -/
def handleCommand (env : Env) (st : St) (u : Nat) (phone : String) (cmd : String) : St :=
  if cmd == "welcome" then sendWelcome st phone
  else if cmd == "new_task" then
    emit (setFlowSt st u (.str "new_task") []) (.text phone newTaskPrompt)
  else if cmd == "new_meeting" then
    emit (setFlowSt st u (.str "new_meeting") []) (.text phone newMeetingPrompt)
  else if cmd == "my_tasks" then showTasks st u phone
  else if cmd == "help" then sendWelcome st phone
  else if cmd == "complete" then
    let pending := (get_today_tasks env.today st.db u).filter (fun t => t.status == "pending")
    match pending with
    | t :: _ =>
        let st := { st with db := complete_task st.db t.id }
        sendNextPrompt
          (emit st (.text phone ("🎉 המשימה \"" ++ pyStr t.title ++ "\" סומנה כבוצעה! ✔️")))
          phone
    | [] =>
        sendNextPrompt (emit st (.text phone "🎉 אין משימות פתוחות להיום!")) phone
  else if cmd == "meetings" then showMeetings st u phone
  else if cmd == "task_today" || cmd == "task_scheduled" || cmd == "task_delegate" then
    emit (setFlowSt st u (.str "new_task") []) (.text phone newTaskPrompt)
  else if cmd == "schedule_meeting" then
    emit (setFlowSt st u (.str "new_meeting") []) (.text phone newMeetingPrompt)
  else sendWelcome st phone

/-- `_handle_text_auto`: free text through `parse_free_text` into either
flow at its confirmation step (its own catch turns a raise into the
apology text). -/
def handleTextAuto (env : Env) (st : St) (u : Nat) (phone : String) (text : String) : St :=
  match parse_free_text env.today env.ai text with
  | none => emit st (.text phone errText)
  | some parsed0 =>
      let ty := jgetD parsed0 "type" (.str "task")
      let parsed := jpop parsed0 "type"
      if ty == .str "meeting" then
        let fd : JMap := [("parsed", .obj parsed), ("step", .str "confirm"),
                          ("created_via", .str "whatsapp_text")]
        let st1 := setFlowSt st u (.str "new_meeting") fd
        match build_meeting_confirm_summary parsed with
        | none => emit st1 (.text phone errText)
        | some s => emit st1 (.meetingConfirm phone s)
      else
        let fd : JMap := [("parsed", .obj parsed), ("step", .str "confirm"),
                          ("created_via", .str "whatsapp_text")]
        let st1 := setFlowSt st u (.str "new_task") fd
        match build_task_confirm_summary parsed with
        | none => emit st1 (.text phone errText)
        | some s => emit st1 (.taskConfirm phone s)

/-- `_handle_voice_auto`: transcribe then auto-detect; `transcript?` is the
transcription oracle's answer for this audio. -/
def handleVoiceAuto (env : Env) (st : St) (u : Nat) (phone : String)
    (transcript? : Option String) : St :=
  match transcript? with
  | none => emit st (.text phone "🎤 לא הצלחתי לזהות. אנא אמור שוב בקול ברור.")
  | some t =>
      match parse_free_text env.today env.ai t with
      | none => emit st (.text phone errText)
      | some parsed0 =>
          let ty := jgetD parsed0 "type" (.str "task")
          let parsed := jpop parsed0 "type"
          if ty == .str "meeting" then
            let fd : JMap := [("transcript", .str t), ("parsed", .obj parsed),
                              ("step", .str "confirm"), ("created_via", .str "whatsapp_voice")]
            let st1 := setFlowSt st u (.str "new_meeting") fd
            match build_meeting_confirm_summary parsed with
            | none => emit st1 (.text phone errText)
            | some s => emit st1 (.meetingConfirm phone s)
          else
            let fd : JMap := [("transcript", .str t), ("parsed", .obj parsed),
                              ("step", .str "confirm"), ("created_via", .str "whatsapp_voice")]
            let st1 := setFlowSt st u (.str "new_task") fd
            match build_task_confirm_summary parsed with
            | none => emit st1 (.text phone errText)
            | some s => emit st1 (.taskConfirm phone s)

/-- The due date `_save_task` resolves from the parsed slots (unparseable
or non-string values fall back to today; both strptime errors are caught
there). -/
def savedDueDate (today : Date) (p : JMap) : Date :=
  match jgetD p "due_date" (.str (isoDate today)) with
  | .str s => (parseIsoDate s).getD today
  | _ => today

/-- `_save_task`: parsed slots to a task row via `create_task`. -/
def save_task (today : Date) (db : Db) (u : Nat) (p : JMap) (createdVia : JVal) :
    Db × Option Nat :=
  let dueDate := savedDueDate today p
  let taskType := if dueDate == today then "today" else "scheduled"
  create_task db u
    [("title", jgetD p "title" (.str "")), ("task_type", .str taskType),
     ("due_date", .str (isoDate dueDate)), ("due_time", jgetD p "due_time" .null),
     ("priority", jgetD p "priority" (.str "medium")), ("created_via", createdVia)]

/-- The exact row `_save_task` inserts (proved equal below). -/
def savedTaskRow (today : Date) (db : Db) (u : Nat) (p : JMap) (cv : JVal) : TaskRow :=
  { id := db.nextTaskId, user_id := u, title := jgetD p "title" (.str ""),
    description := .str "",
    task_type := .str (if savedDueDate today p == today then "today" else "scheduled"),
    status := "pending", priority := jgetD p "priority" (.str "medium"),
    category := .str "general",
    due_date := .str (isoDate (savedDueDate today p)),
    due_time := jgetD p "due_time" .null, created_via := cv,
    voice_transcript := .null }

/-- A JSON value that is a string, or is falsy (the values on which the
raising display formatter is total). -/
def strOrFalsy : JVal → Bool
  | .str _ => true
  | v => !v.truthy

/-- The task flow's positive-confirmation tokens at the confirm step. -/
def taskConfirmPos (aid : Option String) (text : String) : Bool :=
  aid == some "confirm_task" || text == "1" || text == "כן" || text == "אשר"
    || text == "✅ אשר"

/-- The task flow's negative-confirmation tokens at the confirm step. -/
def taskConfirmNeg (aid : Option String) (text : String) : Bool :=
  aid == some "retry_task" || text == "2" || text == "לא" || text == "🔄 נסה שוב"

/-- The voice-confirmation positive tokens (confirm the transcript). -/
def voiceConfirmTok (aid : Option String) (text : String) : Bool :=
  aid == some "confirm_voice" || aid == some "confirm_task" || text == "1"
    || text == "כן" || text == "אשר"

/-- The voice-confirmation negative tokens (discard the transcript). -/
def voiceRetryTok (aid : Option String) (text : String) : Bool :=
  aid == some "retry_voice" || aid == some "retry_task" || text == "2" || text == "לא"

/-- The reminder-step selection: `some (some m)` is a chosen offset of `m`
minutes, `some none` the explicit no-reminder choice, `none` an
unrecognized input (action ids first, then the numeric texts). -/
def reminderSelection (aid : Option String) (text : String) : Option (Option Nat) :=
  if aid == some "remind_1h" then some (some 60)
  else if aid == some "remind_2h" then some (some 120)
  else if aid == some "remind_24h" then some (some 1440)
  else if aid == some "remind_none" then some none
  else if text == "1" then some (some 60)
  else if text == "2" then some (some 120)
  else if text == "3" then some (some 1440)
  else if text == "4" then some none
  else none

/-- `_handle_new_task`: the simplified task flow's step handler
(input → confirm → optional date_fallback → reminder → delegate_ask). -/
def handleNewTask (env : Env) (st : St) (u : Nat) (phone text : String)
    (aid : Option String) (fd : JMap) : HRes :=
  let step := jgetD fd "step" (.str "input")
  if step == .str "input" then
    match parse_task_text env.today env.ai text with
    | none => .error st
    | some p =>
        let fd := jset fd "parsed" (.obj p)
        let fd := jset fd "step" (.str "confirm")
        let fd := jsetdefault fd "created_via" (.str "whatsapp_text")
        let st1 := setFlowSt st u (.str "new_task") fd
        match build_task_confirm_summary p with
        | none => .error st1
        | some s => .ok (emit st1 (.taskConfirm phone s))
  else if step == .str "confirm" then
    if taskConfirmPos aid text then
      match jgetD fd "parsed" (.obj []) with
      | .obj p =>
          if ¬(jgetD p "due_date" .null).truthy then
            let fd := jset fd "step" (.str "date_fallback")
            .ok (emit (setFlowSt st u (.str "new_task") fd) (.dateFallback phone))
          else
            let fd := jset fd "step" (.str "reminder")
            .ok (emit (setFlowSt st u (.str "new_task") fd) (.reminderSelect phone))
      | _ => .error st
    else if taskConfirmNeg aid text then
      let fd := jset fd "step" (.str "input")
      let fd := jpop fd "parsed"
      .ok (emit (setFlowSt st u (.str "new_task") fd) (.text phone "📝 תאר את המשימה שוב:"))
    else
      .ok (emit st (.text phone "שלח *1* לאישור או *2* לנסות שוב."))
  else if step == .str "date_fallback" then
    if (jgetD fd "awaiting_custom_date" .null).truthy then
      match parse_date_text env.today text with
      | some dstr =>
          match jget fd "parsed" with
          | some (.obj p) =>
              let fd := jset fd "parsed" (.obj (jset p "due_date" (.str dstr)))
              let fd := jset fd "step" (.str "reminder")
              let fd := jpop fd "awaiting_custom_date"
              .ok (emit (setFlowSt st u (.str "new_task") fd) (.reminderSelect phone))
          | _ => .error st
      | none =>
          .ok (emit st (.text phone "❌ לא הצלחתי לזהות תאריך.\nהקלד לדוגמה: 25/3/25 או 25/03/2025 או 25.3"))
    else
      match resolve_date env.today text aid with
      | some r =>
          if r == "custom" then
            let fd := jset fd "awaiting_custom_date" (.bool true)
            .ok (emit (setFlowSt st u (.str "new_task") fd)
              (.text phone "📅 הקלד תאריך (לדוגמה: 25/3/25 או 25/03/2025 או 25.3):"))
          else
            match jget fd "parsed" with
            | some (.obj p) =>
                let fd := jset fd "parsed" (.obj (jset p "due_date" (.str r)))
                let fd := jset fd "step" (.str "reminder")
                .ok (emit (setFlowSt st u (.str "new_task") fd) (.reminderSelect phone))
            | _ => .error st
      | none => .ok (emit st (.dateFallback phone))
  else if step == .str "reminder" then
    match reminderSelection aid text with
    | some minutes? =>
        match jgetD fd "parsed" (.obj []) with
        | .obj p =>
            let (db1, tid?) :=
              save_task env.today st.db u p (jgetD fd "created_via" (.str "whatsapp_text"))
            let st := { st with db := db1 }
            let st :=
              match tid?, minutes? with
              | some tid, some m => { st with db := create_single_reminder st.db tid m }
              | _, _ => st
            let fd := jset fd "task_id" (match tid? with | some t => .num t | none => .null)
            let fd := jset fd "step" (.str "delegate_ask")
            let st := setFlowSt st u (.str "new_task") fd
            match format_display_date (jgetD p "due_date" .null) with
            | none => .error st
            | some dd =>
                let msg := "✅ המשימה נשמרה!\n\n📌 *" ++ pyStr (jgetD p "title" (.str ""))
                  ++ "*\n📅 תאריך: " ++ dd ++ "\n⏰ תזכורת: " ++ reminder_text minutes?
                  ++ "\n\n📋 " ++ dashboardUrl ++ "/tasks"
                .ok (emit (emit st (.text phone msg)) (.delegateAsk phone))
        | _ => .error st
    | none => .ok (emit st (.reminderSelect phone))
  else if step == .str "delegate_ask" then
    if aid == some "delegate_yes" || text == "1" || text == "כן" || text == "כן, להעביר"
        || text == "👥 כן, להעביר" then
      match jgetD fd "parsed" (.obj []) with
      | .obj p =>
          let nfd : JMap :=
            [("task_id", jgetD fd "task_id" .null),
             ("task_title", jgetD p "title" (.str "")),
             ("due_date", jgetD p "due_date" (.str ""))]
          .ok (emit (setFlowSt st u (.str "delegate_inline") nfd)
            (.text phone "👤 שתף איש קשר מהטלפון 📱\n\n💡 או הקלד מספר טלפון (לדוגמה: 0501234567)"))
      | _ => .error st
    else if aid == some "delegate_no" || text == "2" || text == "לא" || text == "סיימתי"
        || text == "⏭️ לא, סיימתי" then
      .ok (sendNextPrompt
        (emit (clearFlowSt st u) (.text phone "✅ סיימנו! המשימה נשמרה בהצלחה.")) phone)
    else .ok (emit st (.delegateAsk phone))
  else .ok st

/-- Record a delegation: insert the `delegated_tasks` row and retype the
task as delegated (the body of the `if task_id:` block in
`_handle_delegate_inline`). -/
def recordDelegation (db : Db) (taskId : JVal) (delegator : Nat)
    (assigneePhone : String) (assigneeName : Option String) : Db :=
  let name : JVal :=
    match assigneeName with
    | some n => if ¬n.isEmpty then .str n else .str assigneePhone
    | none => .str assigneePhone
  let db := { db with delegations :=
    { task_id := taskId, delegator_id := delegator,
      assignee_phone := .str assigneePhone, assignee_name := name,
      status := "pending" } :: db.delegations }
  { db with tasks := db.tasks.map fun t =>
      if taskId == .num t.id then { t with task_type := .str "delegated" } else t }

/-- `_handle_delegate_inline`: contact card or typed phone number records
the delegation and sends the invite; any other input escapes the flow and
is reprocessed as a command or free text. -/
def handleDelegateInline (env : Env) (st : St) (u : Nat) (phone text : String)
    (fd : JMap) : HRes :=
  let (vp0, vn0) := parse_vcard text
  let (vphone?, vname?) :=
    match vp0 with
    | some _ => (vp0, vn0)
    | none =>
        if ¬text.isEmpty ∧ phoneShape (pyStrip text) then
          (normalize_phone (pyStrip text), none)
        else (none, vn0)
  match vphone? with
  | none =>
      let st := clearFlowSt st u
      let cmd := if ¬text.isEmpty then get_command (pyStrip text) else none
      match cmd with
      | some c => .ok (handleCommand env st u phone c)
      | none =>
          if ¬(pyStrip text).isEmpty then .ok (handleTextAuto env st u phone (pyStrip text))
          else
            .ok (emit st (.text phone
              "📱 שתף איש קשר מהטלפון כדי להמשיך.\nלחץ על 📎 ובחר *איש קשר*.\n\n💡 או הקלד מספר טלפון (לדוגמה: 0501234567)\n\nשלח *ביטול* לחזרה."))
  | some vphone =>
      let taskId := jgetD fd "task_id" .null
      let taskTitle := jgetD fd "task_title" (.str "")
      let dueDateV := jgetD fd "due_date" (.str "")
      let st :=
        if taskId.truthy then { st with db := recordDelegation st.db taskId u vphone vname? }
        else st
      match format_display_date dueDateV with
      | none => .error st
      | some dd =>
          let displayAssignee := (vname?.filter (fun n => ¬n.isEmpty)).getD vphone
          let inviteMsg := "📥 קיבלת משימה חדשה!\n\n📌 משימה: *" ++ pyStr taskTitle
            ++ "*\n📅 תאריך יעד: " ++ dd
          let st := emit st (.delegationInvite vphone inviteMsg)
          let inviteSent := env.inviteOk vphone
          let st := clearFlowSt st u
          let msg :=
            if inviteSent then
              "✅ המשימה הועברה בהצלחה!\n\n👤 נשלח אל: *" ++ displayAssignee
                ++ "*\n📌 משימה: *" ++ pyStr taskTitle ++ "*\n📅 תאריך יעד: " ++ dd
                ++ "\n\n📋 " ++ dashboardUrl ++ "/delegation"
            else
              "✅ המשימה נשמרה ומוקצת ל-*" ++ displayAssignee ++ "*\n\n📌 משימה: *"
                ++ pyStr taskTitle ++ "*\n📅 תאריך יעד: " ++ dd
                ++ "\n\n⚠️ לא הצלחתי לשלוח הזמנה.\nייתכן שהמספר לא רשום במערכת.\nשלח את הלינק הזה ידנית:\n📋 "
                ++ dashboardUrl ++ "/delegation"
          .ok (sendNextPrompt (emit st (.text phone msg)) phone)

/-- Python `v > 0` on a count read from flow data (ints and bools compare;
anything else raises). -/
def jvalPos : JVal → Option Bool
  | .num n => some (n > 0)
  | .bool b => some b
  | _ => none

/-- Python `v + 1` on a count read from flow data. -/
def jvalInc : JVal → Option JVal
  | .num n => some (.num (n + 1))
  | .bool b => some (.num ((if b then 1 else 0) + 1))
  | _ => none

/-- Python `pending[1:] if len(pending) > 1 else []` on a truthy value. -/
def sliceTail : JVal → Option JVal
  | .arr xs => some (if xs.length > 1 then .arr (xs.drop 1) else .arr [])
  | .str s => some (if s.length > 1 then .str (strDrop s 1) else .arr [])
  | _ => none

/-- Python `str(seq[0])` on a truthy sequence. -/
def headDisplay : JVal → Option String
  | .arr (x :: _) => some (pyStr x)
  | .str s => match s.toList with
      | c :: _ => some (String.mk [c])
      | [] => none
  | _ => none

/-- The exit keywords of the meeting-invite collection loop. -/
def inviteExitKeywords : List String :=
  ["סיימתי", "ביטול", "done", "cancel", "לא", "no", "דלג", "skip"]

/-- `_handle_meeting_invite`: the participant collection loop. -/
def handleMeetingInvite (env : Env) (st : St) (u : Nat) (phone text : String)
    (fd : JMap) : HRes :=
  let stripped := pyStrip text
  if ¬stripped.isEmpty ∧ inviteExitKeywords.contains stripped then
    let invited := jgetD fd "invited_count" (.num 0)
    let st := clearFlowSt st u
    match jvalPos invited with
    | none => .error st
    | some pos =>
        let st :=
          if pos then
            emit st (.text phone ("✅ נשלחו " ++ pyStr invited ++ " הזמנות לפגישה!"))
          else st
        .ok (sendNextPrompt st phone)
  else
    let (vp0, vn0) := parse_vcard text
    let (vphone?, vname?) :=
      match vp0 with
      | some _ => (vp0, vn0)
      | none =>
          if ¬stripped.isEmpty ∧ phoneShape stripped then
            (normalize_phone stripped, none)
          else (none, vn0)
    match vphone? with
    | none =>
        let st := clearFlowSt st u
        let invited := jgetD fd "invited_count" (.num 0)
        match jvalPos invited with
        | none => .error st
        | some pos =>
            let st :=
              if pos then
                emit st (.text phone ("✅ נשלחו " ++ pyStr invited ++ " הזמנות לפגישה!"))
              else st
            match get_command stripped with
            | some c => .ok (handleCommand env st u phone c)
            | none => .ok (handleTextAuto env st u phone stripped)
    | some vphone =>
        let meetingId := jgetD fd "meeting_id" .null
        let meetingTitle := jgetD fd "meeting_title" (.str "")
        let meetingDate := jgetD fd "meeting_date" (.str "")
        let meetingTime := jgetD fd "meeting_time" (.str "")
        let location := jgetD fd "location" (.str "")
        let pname : JVal := match vname? with | some n => .str n | none => .null
        let st :=
          if meetingId.truthy then
            { st with db := add_participant st.db meetingId vphone pname }
          else st
        match format_display_date meetingDate with
        | none => .error st
        | some dd =>
            let displayName := (vname?.filter (fun n => ¬n.isEmpty)).getD vphone
            let inviteMsg :=
              let base := "📅 הוזמנת לפגישה!\n\n📌 נושא: *" ++ pyStr meetingTitle
                ++ "*\n🗓️ תאריך: " ++ dd ++ "\n🕐 שעה: " ++ pyStr meetingTime
              if location.truthy ∧ location ≠ .str "לא צוין" then
                base ++ "\n📍 מיקום: " ++ pyStr location
              else base
            let st := emit st (.meetingInvite vphone inviteMsg)
            let inviteSent := env.inviteOk vphone
            match jvalInc (jgetD fd "invited_count" (.num 0)) with
            | none => .error st
            | some newCount =>
                let fd := jset fd "invited_count" newCount
                let pending := jgetD fd "pending_names" (.arr [])
                let fd? : Option JMap :=
                  if pending.truthy then
                    match sliceTail pending with
                    | some rest => some (jset fd "pending_names" rest)
                    | none => none
                  else some fd
                match fd? with
                | none => .error st
                | some fd =>
                    let st := setFlowSt st u (.str "meeting_invite") fd
                    let st :=
                      if inviteSent then
                        emit st (.text phone ("✅ נשלחה הזמנה ל-*" ++ displayName ++ "*!"))
                      else
                        emit st (.text phone ("✅ *" ++ displayName
                          ++ "* נוסף/ה לפגישה.\n⚠️ לא הצלחתי לשלוח הזמנה - ייתכן שהמספר לא רשום במערכת."))
                    let remaining := jgetD fd "pending_names" (.arr [])
                    if remaining.truthy then
                      match headDisplay remaining with
                      | none => .error st
                      | some nm =>
                          .ok (emit st (.text phone ("📱 שתף את איש הקשר הבא: *" ++ nm
                            ++ "*\nאו שלח *סיימתי* לסיום.")))
                    else
                      .ok (emit st (.text phone "📱 שתף עוד אנשי קשר או שלח *סיימתי* לסיום."))

/-- `_finalize_new_meeting`: persist the meeting (companion task first),
send the calendar link, and hand off to the invite-collection flow. -/
def finalizeNewMeeting (env : Env) (st : St) (u : Nat) (phone : String)
    (fd : JMap) : HRes :=
  match jgetD fd "parsed" (.obj []) with
  | .obj p =>
      let mdate? : Option Date :=
        match jgetD p "date" (.str "") with
        | .str s => some ((parseIsoDate s).getD env.today)
        | _ => none
      match mdate? with
      | none => .error st
      | some mdate =>
          let title := jgetD p "title" (.str "")
          let timeV := jgetD p "time" (.str "")
          let mdata : JMap :=
            [("title", title), ("meeting_date", .str (isoDate mdate)),
             ("start_time", timeV), ("location", jgetD p "location" (.str ""))]
          let (db1, mid?) := create_meeting st.db u mdata env.meetingFail
          let st := { st with db := db1 }
          let displayDate := pad2 mdate.d ++ "/" ++ pad2 mdate.m ++ "/" ++ pad4 mdate.y
          let locv := jgetD p "location" (.str "לא צוין")
          let location := if locv.truthy then locv else .str "לא צוין"
          let participants := jgetD p "participants" (.arr [])
          let partsText? : Option String :=
            if participants.truthy then
              match joinComma participants with
              | some j => some ("\n👥 משתתפים: " ++ j)
              | none => none
            else some ""
          match partsText? with
          | none => .error st
          | some partsText =>
              let gcal := build_gcal_link title mdate timeV
                (if location ≠ .str "לא צוין" then location else .str "")
              let msg := "✅ הפגישה נקבעה בהצלחה!\n\n📌 *" ++ pyStr title
                ++ "*\n🗓️ תאריך: " ++ displayDate ++ "\n🕐 שעה: " ++ pyStr timeV
                ++ "\n📍 מיקום: " ++ pyStr location ++ partsText
                ++ "\n\n📅 הוסף ליומן: " ++ gcal
              let st := emit st (.text phone msg)
              match mid? with
              | some mid =>
                  let nfd : JMap :=
                    [("meeting_id", .num mid), ("meeting_title", title),
                     ("meeting_date", .str (isoDate mdate)), ("meeting_time", timeV),
                     ("location", location), ("pending_names", participants),
                     ("invited_count", .num 0)]
                  let st := setFlowSt st u (.str "meeting_invite") nfd
                  if participants.truthy then
                    match joinComma participants with
                    | none => .error st
                    | some names =>
                        .ok (emit st (.text phone
                          ("📱 שתף את אנשי הקשר של המשתתפים ואני אשלח להם הזמנה:\n👥 "
                            ++ names
                            ++ "\n\nשתף איש קשר מהטלפון 📎 או הקלד מספר טלפון.\nשלח *סיימתי* לסיום.")))
                  else
                    .ok (emit st (.text phone
                      "📱 רוצה להזמין משתתפים לפגישה?\nשתף איש קשר מהטלפון 📎 או הקלד מספר טלפון.\n\nשלח *סיימתי* לסיום."))
              | none => .ok (sendNextPrompt (clearFlowSt st u) phone)
  | _ => .error st

/-- `_handle_new_meeting`: the simplified meeting flow's step handler
(input → confirm → optional date_fallback → optional time_select → save). -/
def handleNewMeeting (env : Env) (st : St) (u : Nat) (phone text : String)
    (aid : Option String) (fd : JMap) : HRes :=
  let step := jgetD fd "step" (.str "input")
  if step == .str "input" then
    match parse_meeting_text env.today env.ai text with
    | none => .error st
    | some p =>
        let fd := jset fd "parsed" (.obj p)
        let fd := jset fd "step" (.str "confirm")
        let st1 := setFlowSt st u (.str "new_meeting") fd
        match build_meeting_confirm_summary p with
        | none => .error st1
        | some s => .ok (emit st1 (.meetingConfirm phone s))
  else if step == .str "confirm" then
    if aid == some "confirm_meeting" || text == "1" || text == "כן" || text == "אשר"
        || text == "✅ אשר ושלח" then
      match jgetD fd "parsed" (.obj []) with
      | .obj p =>
          if ¬(jgetD p "date" .null).truthy then
            let fd := jset fd "step" (.str "date_fallback")
            .ok (emit (setFlowSt st u (.str "new_meeting") fd) (.dateFallback phone))
          else if ¬(jgetD p "time" .null).truthy then
            let fd := jset fd "step" (.str "time_select")
            .ok (emit (setFlowSt st u (.str "new_meeting") fd) (.timeSelect phone))
          else finalizeNewMeeting env st u phone fd
      | _ => .error st
    else if aid == some "cancel_flow" || text == "2" || text == "בטל" || text == "❌ בטל" then
      .ok (sendNextPrompt (emit (clearFlowSt st u) (.text phone "❌ הפגישה בוטלה.")) phone)
    else
      match jgetD fd "parsed" (.obj []) with
      | .obj p =>
          match build_meeting_confirm_summary p with
          | none => .error st
          | some s => .ok (emit st (.meetingConfirm phone s))
      | _ => .error st
  else if step == .str "date_fallback" then
    if (jgetD fd "awaiting_custom_date" .null).truthy then
      match parse_date_text env.today text with
      | some dstr =>
          match jget fd "parsed" with
          | some (.obj p) =>
              let p := jset p "date" (.str dstr)
              let fd := jset fd "parsed" (.obj p)
              let fd := jpop fd "awaiting_custom_date"
              if ¬(jgetD p "time" .null).truthy then
                let fd := jset fd "step" (.str "time_select")
                .ok (emit (setFlowSt st u (.str "new_meeting") fd) (.timeSelect phone))
              else finalizeNewMeeting env st u phone fd
          | _ => .error st
      | none =>
          .ok (emit st (.text phone "❌ לא הצלחתי לזהות תאריך.\nהקלד לדוגמה: 25/3/25 או 25/03/2025 או 25.3"))
    else
      match resolve_date env.today text aid with
      | some r =>
          if r == "custom" then
            let fd := jset fd "awaiting_custom_date" (.bool true)
            .ok (emit (setFlowSt st u (.str "new_meeting") fd)
              (.text phone "📅 הקלד תאריך (לדוגמה: 25/3/25 או 25/03/2025 או 25.3):"))
          else
            match jget fd "parsed" with
            | some (.obj p) =>
                let p := jset p "date" (.str r)
                let fd := jset fd "parsed" (.obj p)
                if ¬(jgetD p "time" .null).truthy then
                  let fd := jset fd "step" (.str "time_select")
                  .ok (emit (setFlowSt st u (.str "new_meeting") fd) (.timeSelect phone))
                else finalizeNewMeeting env st u phone fd
            | _ => .error st
      | none => .ok (emit st (.dateFallback phone))
  else if step == .str "time_select" then
    match resolve_time text aid with
    | some tv =>
        match jget fd "parsed" with
        | some (.obj p) =>
            let fd := jset fd "parsed" (.obj (jset p "time" (.str tv)))
            finalizeNewMeeting env st u phone fd
        | _ => .error st
    | none => .ok (emit st (.timeSelect phone))
  else .ok st

/-- `_finalize_task_legacy` (the legacy create-task completion; the
non-string stored due date hits the uncaught `TypeError`). -/
def finalizeTaskLegacy (env : Env) (st : St) (u : Nat) (phone : String)
    (fd : JMap) : HRes :=
  let title := jgetD fd "title" (.str "")
  let due? : Option Date :=
    match jgetD fd "due_date" (.str (isoDate env.today)) with
    | .str s => some ((parseIsoDate s).getD env.today)
    | _ => none
  match due? with
  | none => .error st
  | some due =>
      let ttype := if due == env.today then "today" else "scheduled"
      let (db1, tid?) := create_task st.db u
        [("title", title), ("task_type", .str ttype),
         ("due_date", .str (isoDate due)), ("created_via", .str "whatsapp_text")]
      let st := { st with db := db1 }
      let st :=
        match tid? with
        | some tid => { st with db := create_reminders_for_task env.nowMin st.db tid }
        | none => st
      let st := clearFlowSt st u
      let msg := "✅ המשימה נשמרה!\n\n📌 *" ++ pyStr title ++ "*\n📅 תאריך יעד: "
        ++ (pad2 due.d ++ "/" ++ pad2 due.m ++ "/" ++ pad4 due.y)
        ++ "\n\n📋 " ++ dashboardUrl ++ "/tasks"
      .ok (sendNextPrompt (emit st (.text phone msg)) phone)

/-- `_handle_create_task_legacy`. -/
def handleCreateTaskLegacy (env : Env) (st : St) (u : Nat) (phone text : String)
    (aid : Option String) (fd : JMap) : HRes :=
  let fd := if (jget fd "title").isNone then jset fd "title" (.str text) else fd
  if jgetD fd "type" .null == .str "today" then
    finalizeTaskLegacy env st u phone (jsetdefault fd "due_date" (.str (isoDate env.today)))
  else if (jget fd "due_date").isNone then
    match resolve_date env.today text aid with
    | some r =>
        if r ≠ "custom" then finalizeTaskLegacy env st u phone (jset fd "due_date" (.str r))
        else .ok (emit st (.dateSelect phone))
    | none => .ok (emit st (.dateSelect phone))
  else finalizeTaskLegacy env st u phone fd

/-- `_finalize_delegation_legacy`. -/
def finalizeDelegationLegacy (env : Env) (st : St) (u : Nat) (phone : String)
    (fd : JMap) : HRes :=
  let due? : Option Date :=
    match jgetD fd "due_date" (.str (isoDate env.today)) with
    | .str s => some ((parseIsoDate s).getD env.today)
    | _ => none
  match due? with
  | none => .error st
  | some due =>
      match jget fd "task_title" with
      | none => .error st
      | some taskTitle =>
          let (db1, tid?) := create_task st.db u
            [("title", taskTitle), ("task_type", .str "delegated"),
             ("due_date", .str (isoDate due)), ("created_via", .str "whatsapp_text")]
          let st := { st with db := db1 }
          match jget fd "assignee" with
          | none => .error st
          | some assignee =>
              let assigneeName := jgetD fd "assignee_name" (.str "")
              let st :=
                match tid? with
                | some tid =>
                    { st with db := { st.db with delegations :=
                        { task_id := .num tid, delegator_id := u,
                          assignee_phone := assignee,
                          assignee_name := if assigneeName.truthy then assigneeName else assignee,
                          status := "pending" } :: st.db.delegations } }
                | none => st
              let st := clearFlowSt st u
              let displayAssignee :=
                if assigneeName.truthy then pyStr assigneeName else pyStr assignee
              let msg := "✅ המשימה הועברה!\n\n👤 נשלח אל: *" ++ displayAssignee
                ++ "*\n📌 *" ++ pyStr taskTitle ++ "*\n📅 "
                ++ (pad2 due.d ++ "/" ++ pad2 due.m ++ "/" ++ pad4 due.y)
                ++ "\n\n📋 " ++ dashboardUrl ++ "/delegation"
              .ok (sendNextPrompt (emit st (.text phone msg)) phone)

/-- `_handle_delegate_legacy`. -/
def handleDelegateLegacy (env : Env) (st : St) (u : Nat) (phone text : String)
    (fd : JMap) : HRes :=
  if (jget fd "task_title").isNone then
    let fd := jset fd "task_title" (.str text)
    .ok (emit (setFlowSt st u (.str "delegate") fd) (.text phone "👤 שתף איש קשר מהטלפון 📱"))
  else if (jget fd "assignee").isNone then
    match parse_vcard text with
    | (some vp, vn) =>
        let fd := jset fd "assignee" (.str vp)
        let fd :=
          match vn with
          | some n => if ¬n.isEmpty then jset fd "assignee_name" (.str n) else fd
          | none => fd
        finalizeDelegationLegacy env st u phone (jset fd "due_date" (.str (isoDate env.today)))
    | (none, _) => .ok (emit st (.text phone "📱 שתף איש קשר מהטלפון."))
  else finalizeDelegationLegacy env st u phone fd

/-- `_finalize_meeting_legacy`. -/
def finalizeMeetingLegacy (env : Env) (st : St) (u : Nat) (phone : String)
    (fd : JMap) : HRes :=
  match jget fd "date" with
  | none => .error st
  | some dateV =>
      let mdate? : Option Date :=
        match dateV with
        | .str s => some ((parseIsoDate s).getD env.today)
        | _ => none
      match mdate? with
      | none => .error st
      | some mdate =>
          let title := jgetD fd "title" (.str "")
          let timeV := jgetD fd "time" (.str "")
          let locV := jgetD fd "location" (.str "")
          let (db1, mid?) := create_meeting st.db u
            [("title", title), ("meeting_date", .str (isoDate mdate)),
             ("start_time", timeV), ("location", locV)] env.meetingFail
          let st := { st with db := db1 }
          let displayDate := pad2 mdate.d ++ "/" ++ pad2 mdate.m ++ "/" ++ pad4 mdate.y
          let gcal := build_gcal_link title mdate timeV locV
          let msg := "✅ הפגישה נקבעה בהצלחה!\n\n📌 *" ++ pyStr title
            ++ "*\n🗓️ תאריך: " ++ displayDate ++ "\n🕐 שעה: " ++ pyStr timeV
            ++ "\n📍 מיקום: " ++ (if locV.truthy then pyStr locV else "לא צוין")
            ++ "\n\n📅 הוסף ליומן: " ++ gcal
          let st := emit st (.text phone msg)
          match mid? with
          | some mid =>
              let nfd : JMap :=
                [("meeting_id", .num mid), ("meeting_title", title),
                 ("meeting_date", .str (isoDate mdate)), ("meeting_time", timeV),
                 ("location", locV), ("pending_names", .arr []), ("invited_count", .num 0)]
              let st := setFlowSt st u (.str "meeting_invite") nfd
              .ok (emit st (.text phone
                "📱 רוצה להזמין משתתפים לפגישה?\nשתף איש קשר מהטלפון 📎 או הקלד מספר טלפון.\n\nשלח *סיימתי* לסיום."))
          | none => .ok (sendNextPrompt (clearFlowSt st u) phone)

/-- `_handle_meeting_legacy`. -/
def handleMeetingLegacy (env : Env) (st : St) (u : Nat) (phone text : String)
    (aid : Option String) (fd : JMap) : HRes :=
  if (jget fd "title").isNone then
    let fd := jset fd "title" (.str text)
    .ok (emit (setFlowSt st u (.str "meeting") fd) (.dateSelect phone))
  else if (jget fd "date").isNone then
    match resolve_date env.today text aid with
    | some r =>
        if r ≠ "custom" then
          let fd := jset fd "date" (.str r)
          .ok (emit (setFlowSt st u (.str "meeting") fd) (.timeSelect phone))
        else .ok (emit st (.dateSelect phone))
    | none => .ok (emit st (.dateSelect phone))
  else if (jget fd "time").isNone then
    match resolve_time text aid with
    | some tv =>
        let fd := jset fd "time" (.str tv)
        let fd := jset fd "location" (.str "")
        let fd := jset fd "participants" (.arr [])
        finalizeMeetingLegacy env st u phone fd
    | none => .ok (emit st (.timeSelect phone))
  else if aid == some "confirm_meeting" || text == "1" || text == "כן" || text == "אשר" then
    finalizeMeetingLegacy env st u phone fd
  else .ok (sendNextPrompt st phone)

/-- `_handle_voice_confirm` (legacy standalone voice confirmation,
redirecting into the new task flow). Non-string stored transcripts are
outside the modelled state space (the program only stores strings) and
take the error path. -/
def voiceConfirmBody (env : Env) (st : St) (u : Nat) (phone text : String)
    (aid : Option String) (fd : JMap) : HRes :=
  if voiceConfirmTok aid text then
    match jgetD fd "parsed" (.obj []) with
    | .obj p0 =>
        let revised? : Option (JMap × JMap) :=
          if ¬(jgetD p0 "title" .null).truthy then
            match jgetD fd "transcript" (.str "") with
            | .str tr =>
                match parse_task_text env.today env.ai tr with
                | some p1 => some (p1, jset fd "parsed" (.obj p1))
                | none => none
            | _ => none
          else some (p0, fd)
        match revised? with
        | none => .error st
        | some (p, fd) =>
            if ¬(jgetD p "due_date" .null).truthy then
              let fd := jset fd "step" (.str "date_fallback")
              .ok (emit (setFlowSt st u (.str "new_task") fd) (.dateFallback phone))
            else
              let fd := jset fd "step" (.str "reminder")
              .ok (emit (setFlowSt st u (.str "new_task") fd) (.reminderSelect phone))
    | _ => .error st
  else if voiceRetryTok aid text then
    .ok (emit (clearFlowSt st u) (.text phone "🎤 שלח הודעה קולית חדשה:"))
  else .ok (emit st (.text phone "שלח *1* לאישור או *2* להקלטה מחדש."))

/-- `_handle_flow`: the per-flow dispatcher with its catch-all (clear the
flow, apologize, re-prompt). The fuel argument bounds the nested
voice-confirmation re-dispatch (the only recursive edge); the program's
nesting depth is at most two, so any surplus fuel is equivalent.
The `voice_pending` branch is `_handle_voice_pending` inlined: a positive
confirmation restores the interrupted flow and re-dispatches the stored
transcript as typed text; a negative one re-prompts the interrupted
flow's current step; anything else asks for 1 or 2. -/
def handleFlow (env : Env) : Nat → St → Nat → String → String → Option String →
    JVal → JMap → St
  | 0, st, _, _, _, _, _, _ => st
  | fuel + 1, st, u, phone, text, aid, fname, fd =>
      let res : HRes :=
        if fname == .str "voice_pending" then
          if voiceConfirmTok aid text then
            let pv := jget fd "_pending_voice"
            let fd1 := jpop fd "_pending_voice"
            let rv := jgetD fd1 "_return_flow" .null
            let fd2 := jpop fd1 "_return_flow"
            if ¬rv.truthy then .ok (sendNextPrompt (clearFlowSt st u) phone)
            else
              let transcript? : Option String :=
                match pv with
                | some (.str t) => some t
                | none => some ""
                | some _ => none
              match transcript? with
              | none => .error st
              | some t =>
                  let st1 := setFlowSt st u rv fd2
                  .ok (handleFlow env fuel st1 u phone t none rv fd2)
          else if voiceRetryTok aid text then
            let fd1 := jpop fd "_pending_voice"
            let rv := jgetD fd1 "_return_flow" .null
            let fd2 := jpop fd1 "_return_flow"
            if ¬rv.truthy then .ok (sendNextPrompt (clearFlowSt st u) phone)
            else
              let st1 := setFlowSt st u rv fd2
              .ok (emit st1 (.text phone
                (get_flow_prompt rv fd2 ++ "\n\n🎤 שלח הודעה קולית או הקלד:")))
          else .ok (emit st (.text phone "שלח *1* לאישור או *2* להקלטה מחדש."))
        else if fname == .str "voice_confirm" then
          voiceConfirmBody env st u phone text aid fd
        else if fname == .str "new_task" then
          handleNewTask env st u phone text aid fd
        else if fname == .str "new_meeting" then
          handleNewMeeting env st u phone text aid fd
        else if fname == .str "delegate_inline" then
          handleDelegateInline env st u phone text fd
        else if fname == .str "meeting_invite" then
          handleMeetingInvite env st u phone text fd
        else if fname == .str "create_task" then
          handleCreateTaskLegacy env st u phone text aid fd
        else if fname == .str "delegate" then
          handleDelegateLegacy env st u phone text fd
        else if fname == .str "meeting" then
          handleMeetingLegacy env st u phone text aid fd
        else .ok (sendNextPrompt (clearFlowSt st u) phone)
      match res with
      | .ok st1 => st1
      | .error stE =>
          sendNextPrompt (emit (clearFlowSt stE u) (.text phone errText)) phone

/-- `_handle_voice_in_flow`: a voice message while a flow is active. The
direct-parse flows (`new_task`, `new_meeting`) skip the transcript
confirmation and jump straight to their parsed-confirmation step (the
meeting variant sends its summary through the task-confirm template,
as the source does); every other flow enters `voice_pending`, storing the
transcript and the interrupted flow under `_return_flow`. -/
def handleVoiceInFlow (env : Env) (st : St) (u : Nat) (phone : String)
    (transcript? : Option String) (fname : JVal) (fd : JMap) : St :=
  let body : HRes :=
    match transcript? with
    | none => .ok (emit st (.text phone "🎤 לא הצלחתי לזהות. אנא אמור שוב בקול ברור."))
    | some t =>
        if fname == .str "new_task" then
          match parse_task_text env.today env.ai t with
          | none => .error st
          | some p =>
              let fd := jset fd "transcript" (.str t)
              let fd := jset fd "parsed" (.obj p)
              let fd := jset fd "step" (.str "confirm")
              let fd := jset fd "created_via" (.str "whatsapp_voice")
              let st1 := setFlowSt st u (.str "new_task") fd
              match build_task_confirm_summary p with
              | none => .error st1
              | some s => .ok (emit st1 (.taskConfirm phone s))
        else if fname == .str "new_meeting" then
          match parse_meeting_text env.today env.ai t with
          | none => .error st
          | some p =>
              let fd := jset fd "transcript" (.str t)
              let fd := jset fd "parsed" (.obj p)
              let fd := jset fd "step" (.str "confirm")
              let fd := jset fd "created_via" (.str "whatsapp_voice")
              let st1 := setFlowSt st u (.str "new_meeting") fd
              match build_meeting_confirm_summary p with
              | none => .error st1
              | some s => .ok (emit st1 (.taskConfirm phone s))
        else
          let fd := jset fd "_pending_voice" (.str t)
          let fd := jset fd "_return_flow" fname
          .ok (emit (setFlowSt st u (.str "voice_pending") fd) (.voiceConfirm phone t))
  match body with
  | .ok st1 => st1
  | .error stE => emit stE (.text phone errText)

/-- The voice branch of `handle_incoming_message`: route the transcription
by the stored flow state. -/
def handleVoiceMessage (env : Env) (st : St) (u : Nat) (phone : String)
    (transcript? : Option String) : St :=
  let (fname, fd) := getFlowOf st.conv u
  if fname == .str "voice_pending" then
    handleVoiceInFlow env st u phone transcript? (jgetD fd "_return_flow" .null) fd
  else if fname == .str "voice_confirm" then
    handleVoiceAuto env st u phone transcript?
  else if fname.truthy then
    handleVoiceInFlow env st u phone transcript? fname fd
  else handleVoiceAuto env st u phone transcript?

/-! ## Shared test fixtures -/

/-- A GPT oracle that always fails (backend unavailable). -/
def oracleNone : Oracle := ⟨fun _ => none, fun _ => none, fun _ => none⟩

/-- A sample environment: a fixed date, failing GPT, deliverable invites. -/
def envSample : Env := ⟨⟨2025, 10, 12⟩, 0, oracleNone, fun _ => true, false⟩

/-- The empty conversation table. -/
def emptyConv : ConvTable := fun _ => none

/-- A fresh system state. -/
def stEmpty : St := ⟨Db.empty, emptyConv, 0, []⟩

/-! ## Helper lemmas on JSON maps and the state store -/

/-- Reading the key just written. -/
theorem jget_jset_self (m : JMap) (k : String) (v : JVal) :
    jget (jset m k v) k = some v := by
  induction m with
  | nil => simp [jset, jget]
  | cons hd tl ih =>
      obtain ⟨k1, v1⟩ := hd
      by_cases h : k1 == k
      · simp [jset, h, jget]
      · simp only [jset, h, if_false, Bool.false_eq_true]
        simpa [jget, List.find?, h] using ih

/-- Unfold `jget` through `List.find?`. -/
theorem jget_eq_find (m : JMap) (k : String) :
    jget m k = (m.find? (fun p => p.1 == k)).map (fun p => p.2) := by
  cases h : m.find? (fun p => p.1 == k) <;> simp [jget, h]

/-- The key search ignores a write to a different key. -/
theorem find_jset_ne (k k' : String) (v : JVal) (h : ¬k' = k) (m : JMap) :
    (jset m k v).find? (fun p => p.1 == k') = m.find? (fun p => p.1 == k') := by
  induction m with
  | nil =>
      have hkk : (k == k') = false := by
        simp only [beq_eq_false_iff_ne, ne_eq]
        exact fun e => h e.symm
      simp [jset, List.find?, hkk]
  | cons hd tl ih =>
      obtain ⟨k1, v1⟩ := hd
      by_cases h1 : (k1 == k) = true
      · have hk1 : k1 = k := by simpa using h1
        subst hk1
        have hkk : (k1 == k') = false := by
          simp only [beq_eq_false_iff_ne, ne_eq]
          exact fun e => h e.symm
        simp [jset, h1, List.find?, hkk]
      · have h1' : (k1 == k) = false := by simpa using h1
        by_cases h2 : (k1 == k') = true
        · simp [jset, h1', List.find?, h2]
        · have h2' : (k1 == k') = false := by simpa using h2
          simp [jset, h1', List.find?, h2', ih]

/-- Writing one key leaves the others readable unchanged. -/
theorem jget_jset_ne (m : JMap) (k k' : String) (v : JVal) (h : ¬k' = k) :
    jget (jset m k v) k' = jget m k' := by
  rw [jget_eq_find, jget_eq_find, find_jset_ne k k' v h m]

/-- The key search ignores the removal of a different key. -/
theorem find_jpop_ne (k k' : String) (h : ¬k' = k) (m : JMap) :
    (jpop m k).find? (fun p => p.1 == k') = m.find? (fun p => p.1 == k') := by
  induction m with
  | nil => simp [jpop]
  | cons hd tl ih =>
      obtain ⟨k1, v1⟩ := hd
      by_cases h1 : k1 = k
      · subst h1
        have hkk : (k1 == k') = false := by
          simp only [beq_eq_false_iff_ne, ne_eq]
          exact fun e => h e.symm
        simp [jpop, List.filter, List.find?, hkk] at ih ⊢
        exact ih
      · by_cases h2 : (k1 == k') = true
        · simp [jpop, List.filter, h1, List.find?, h2]
        · have h2' : (k1 == k') = false := by simpa using h2
          simp [jpop, List.filter, h1, List.find?, h2'] at ih ⊢
          exact ih

/-- Popping one key leaves the others readable unchanged. -/
theorem jget_jpop_ne (m : JMap) (k k' : String) (h : ¬k' = k) :
    jget (jpop m k) k' = jget m k' := by
  rw [jget_eq_find, jget_eq_find, find_jpop_ne k k' h m]

/-- Reading back the row a `set_flow` wrote (for a truthy flow name). -/
theorem getFlow_set (t : ConvTable) (u : Nat) (f : JVal) (d : JMap) (now : Nat)
    (hf : f.truthy = true) :
    getFlowOf (set_flow t u f (some d) now) u = (f, d) := by
  simp [getFlowOf, get_flow, set_flow, loadFlowData, hf]

/-- A nonempty string is truthy. -/
theorem truthy_str (s : String) (h : ¬s = "") : (JVal.str s).truthy = true := by
  have he : s.isEmpty = false := by
    cases hb : s.isEmpty
    · rfl
    · exact absurd ((String.isEmpty_iff s).mp hb) h
  simp [JVal.truthy, he]

/-- String-payload equality of `JVal` reduces to string equality. -/
@[simp] theorem jval_beq_str (a b : String) :
    ((JVal.str a) == (JVal.str b)) = (a == b) := by
  show JVal.beq (.str a) (.str b) = (a == b)
  rfl

/-- A string value never equals `null`. -/
@[simp] theorem jval_beq_str_null (a : String) :
    ((JVal.str a) == JVal.null) = false := rfl

/-! ## C3 — the state read never raises and fails open -/

/-- C3: `get_flow` is a total function of the fetch outcome (it cannot
raise), returns `(null, empty)` for every user with no stored row, and
returns `(null, empty)` on any storage error. -/
theorem c3_get_flow_fail_open :
    (∀ (t : ConvTable) (u : Nat), t u = none → getFlowOf t u = (.null, [])) ∧
    (∀ e : Unit, get_flow (.error e) = (.null, [])) := by
  constructor
  · intro t u h
    simp [getFlowOf, h, get_flow]
  · intro e
    simp [get_flow]

/-- C3 witness: a concrete user with no stored state reads as no flow. -/
theorem c3_get_flow_fail_open_witness :
    emptyConv 7 = none ∧ getFlowOf emptyConv 7 = (.null, []) :=
  ⟨rfl, c3_get_flow_fail_open.1 emptyConv 7 rfl⟩

/-! ## C4 — set/get round trip -/

/-- C4 counterexample: writing the pair (null flow name, nonempty data)
via `set_flow` and reading back gives `(null, empty)`, not the written
pair — the read treats a falsy flow name as "no flow" and never loads the
data, so the round trip fails for the claim as stated (`set`'s documented
domain includes a `None` flow name). -/
theorem c4_roundtrip_counterexample :
    getFlowOf (set_flow emptyConv 0 .null (some [("a", .num 1)]) 0) 0 = (.null, []) ∧
    getFlowOf (set_flow emptyConv 0 .null (some [("a", .num 1)]) 0) 0 ≠
      (.null, [("a", .num 1)]) := by
  constructor
  · rfl
  · decide

/-- C4 amended: for every pair written via `set_flow` whose flow name is a
non-null, nonempty string, an immediate `get_flow` returns exactly that
pair (the flow-data map round-trips through serialization unchanged);
with a null (or empty-string) flow name the read returns `(null, empty)`
regardless of the written data. -/
theorem c4_roundtrip (t : ConvTable) (u now : Nat) (f : String) (d : JMap)
    (hf : ¬f = "") :
    getFlowOf (set_flow t u (.str f) (some d) now) u = (.str f, d) :=
  getFlow_set t u (.str f) d now (truthy_str f hf)

/-- C4 witness: a concrete nonempty flow name and data map round-trip. -/
theorem c4_roundtrip_witness :
    getFlowOf (set_flow emptyConv 3 (.str "new_task")
      (some [("step", .str "confirm")]) 5) 3 = (.str "new_task", [("step", .str "confirm")]) :=
  c4_roundtrip emptyConv 3 5 "new_task" [("step", .str "confirm")] (by decide)

/-! ## C10 — corrupt flow data read as an empty map -/

/-- C10 counterexample: a stored row whose flow name is the empty string
(non-null in the column) with NULL flow data reads as `(null, empty)`,
not as the stored flow name paired with an empty map — the truthiness
guard also swallows empty-string flow names. -/
theorem c10_corrupt_counterexample :
    get_flow (.ok (some ⟨.str "", none, 0⟩)) = (.null, []) ∧
    get_flow (.ok (some ⟨.str "", none, 0⟩)) ≠ (.str "", []) := by
  constructor
  · rfl
  · decide

/-- C10 amended: for every stored row with a non-null, nonempty flow name
whose flow data is NULL or not valid JSON, the read returns that flow name
paired with the empty map, and no exception escapes (the read is a total
function of the row). -/
theorem c10_corrupt_data_empty_map (f : String) (hf : ¬f = "") (b : Option Blob)
    (hb : b = none ∨ b = some .invalid) (n : Nat) :
    get_flow (.ok (some ⟨.str f, b, n⟩)) = (.str f, []) := by
  rcases hb with h | h <;>
    simp [h, get_flow, loadFlowData, truthy_str f hf]

/-- C10 witness: a concrete corrupt row reads as the flow with empty data. -/
theorem c10_corrupt_data_empty_map_witness :
    get_flow (.ok (some ⟨.str "new_task", none, 0⟩)) = (.str "new_task", []) :=
  c10_corrupt_data_empty_map "new_task" (by decide) none (Or.inl rfl) 0

/-! ## C6 — meeting keywords force the meeting extractor -/

/-- C6: whenever the input contains a meeting keyword (e.g. "פגישה"), the
auto-detecting extractor is exactly the meeting extractor's result tagged
as a meeting — it never consults the auto-classification prompt or the
task extractor — and every produced record is typed `meeting`, for every
behaviour of the GPT backend (available, erroring, or classifying
otherwise). -/
theorem c6_meeting_keyword_routing (today : Date) (o : Oracle) (text : String)
    (h : has_meeting_keywords text = true) :
    parse_free_text today o text =
      (parse_meeting_text today o text).map (fun p => jset p "type" (.str "meeting")) ∧
    ∀ res ∈ parse_free_text today o text, jget res "type" = some (.str "meeting") := by
  have h1 : parse_free_text today o text =
      (parse_meeting_text today o text).map (fun p => jset p "type" (.str "meeting")) := by
    unfold parse_free_text
    simp only [h, if_true]
    cases hm : parse_meeting_text today o text <;> simp
  refine ⟨h1, ?_⟩
  intro res hres
  rw [h1] at hres
  simp only [Option.mem_def, Option.map_eq_some'] at hres
  obtain ⟨p, _, rfl⟩ := hres
  exact jget_jset_self p "type" (.str "meeting")

/-- C6 witness: a concrete Hebrew text containing "פגישה", against the
unavailable GPT backend. -/
theorem c6_meeting_keyword_routing_witness :
    has_meeting_keywords "פגישה עם דני" = true ∧
    (parse_free_text ⟨2025, 10, 12⟩ oracleNone "פגישה עם דני" =
      (parse_meeting_text ⟨2025, 10, 12⟩ oracleNone "פגישה עם דני").map
        (fun p => jset p "type" (.str "meeting")) ∧
     ∀ res ∈ parse_free_text ⟨2025, 10, 12⟩ oracleNone "פגישה עם דני",
       jget res "type" = some (.str "meeting")) :=
  ⟨by decide, c6_meeting_keyword_routing ⟨2025, 10, 12⟩ oracleNone "פגישה עם דני" (by decide)⟩

/-! ## C5 — the task flow's confirm step -/

/-- Flow data sitting at the task confirm step with a parsed due date. -/
def c5fdSample : JMap :=
  [("step", .str "confirm"),
   ("parsed", .obj [("title", .str "משימה"), ("due_date", .str "2025-10-13")])]

/-- C5 counterexample: `"yes"` is a positive confirmation per the
`get_confirmation` resolver the spec names, yet the confirm-step handler
(which never consults that resolver) treats it as unparseable: it leaves
the stored flow state untouched and sends a fixed reply-1-or-2
instruction — neither the claimed transition to the reminder selection
nor a re-send of the confirmation prompt. -/
theorem c5_confirm_counterexample :
    get_confirmation "yes" = some true ∧
    jget c5fdSample "parsed" =
      some (.obj [("title", .str "משימה"), ("due_date", .str "2025-10-13")]) ∧
    handleNewTask envSample stEmpty 0 "p" "yes" none c5fdSample =
      .ok (emit stEmpty (.text "p" "שלח *1* לאישור או *2* לנסות שוב.")) ∧
    (emit stEmpty (.text "p" "שלח *1* לאישור או *2* לנסות שוב.")).conv = stEmpty.conv ∧
    (emit stEmpty (.text "p" "שלח *1* לאישור או *2* לנסות שוב.")).out ≠
      [Out.reminderSelect "p"] ∧
    Out.text "p" "שלח *1* לאישור או *2* לנסות שוב." ≠
      Out.taskConfirm "p" ((build_task_confirm_summary
        [("title", .str "משימה"), ("due_date", .str "2025-10-13")]).getD "") := by
  refine ⟨by decide, by decide, by rfl, by rfl, by decide, by decide⟩

/-- C5 amended: at the confirm step, the handler's own token sets decide
the outcome (action `confirm_task` or text 1/כן/אשר/✅ אשר is positive;
action `retry_task` or text 2/לא/🔄 נסה שוב is negative — the
`get_confirmation` resolver is not consulted). A positive confirmation
moves to `date_fallback` when the parsed slots have no truthy due date
and to the reminder selection otherwise; a negative one returns to the
`input` step (dropping the parse) and re-prompts for raw text; any other
input sends a fixed reply-1-or-2 instruction and leaves the stored flow
state unmodified. -/
theorem c5_confirm_step (env : Env) (st : St) (u : Nat) (phone text : String)
    (aid : Option String) (fd p : JMap)
    (hstep : jgetD fd "step" (.str "input") = .str "confirm")
    (hparsed : jgetD fd "parsed" (.obj []) = .obj p) :
    (taskConfirmPos aid text = true →
      ((jgetD p "due_date" .null).truthy = false →
        handleNewTask env st u phone text aid fd =
          .ok (emit (setFlowSt st u (.str "new_task") (jset fd "step" (.str "date_fallback")))
            (.dateFallback phone))) ∧
      ((jgetD p "due_date" .null).truthy = true →
        handleNewTask env st u phone text aid fd =
          .ok (emit (setFlowSt st u (.str "new_task") (jset fd "step" (.str "reminder")))
            (.reminderSelect phone)))) ∧
    (taskConfirmPos aid text = false → taskConfirmNeg aid text = true →
      handleNewTask env st u phone text aid fd =
        .ok (emit (setFlowSt st u (.str "new_task") (jpop (jset fd "step" (.str "input")) "parsed"))
          (.text phone "📝 תאר את המשימה שוב:"))) ∧
    (taskConfirmPos aid text = false → taskConfirmNeg aid text = false →
      handleNewTask env st u phone text aid fd =
        .ok (emit st (.text phone "שלח *1* לאישור או *2* לנסות שוב."))) := by
  refine ⟨fun hpos => ⟨fun hdue => ?_, fun hdue => ?_⟩,
          fun hpos hneg => ?_, fun hpos hneg => ?_⟩
  · simp [handleNewTask, hstep, hparsed, hpos, hdue]
  · simp [handleNewTask, hstep, hparsed, hpos, hdue]
  · simp [handleNewTask, hstep, hparsed, hpos, hneg]
  · simp [handleNewTask, hstep, hparsed, hpos, hneg]

/-- C5 witness: a concrete positive confirmation with a due date present
moves to the reminder selection. -/
theorem c5_confirm_step_witness :
    taskConfirmPos none "כן" = true ∧
    (jgetD [("title", JVal.str "משימה"), ("due_date", JVal.str "2025-10-13")]
        "due_date" .null).truthy = true ∧
    handleNewTask envSample stEmpty 0 "p" "כן" none c5fdSample =
      .ok (emit (setFlowSt stEmpty 0 (.str "new_task")
             (jset c5fdSample "step" (.str "reminder"))) (.reminderSelect "p")) :=
  ⟨by decide, by decide,
   ((c5_confirm_step envSample stEmpty 0 "p" "כן" none c5fdSample
       [("title", JVal.str "משימה"), ("due_date", JVal.str "2025-10-13")]
       (by decide) (by decide)).1 (by decide)).2 (by decide)⟩

/-! ## C1 — the reminder-selection step -/

/-- The display formatter is total on strings and falsy values. -/
theorem format_display_date_some (v : JVal) (h : strOrFalsy v = true) :
    ∃ s, format_display_date v = some s := by
  cases v with
  | str s =>
      cases ht : JVal.truthy (.str s) with
      | false => exact ⟨"לא צוין", by simp [format_display_date, ht]⟩
      | true =>
          cases hp : parseIsoDate s with
          | none => exact ⟨s, by simp [format_display_date, ht, hp]⟩
          | some d =>
              exact ⟨pad2 d.d ++ "/" ++ pad2 d.m ++ "/" ++ pad4 d.y,
                by simp [format_display_date, ht, hp]⟩
  | null => exact ⟨"לא צוין", by simp [format_display_date, JVal.truthy]⟩
  | bool b =>
      have hf : JVal.truthy (.bool b) = false := by simpa [strOrFalsy] using h
      exact ⟨"לא צוין", by simp [format_display_date, hf]⟩
  | num n =>
      have hf : JVal.truthy (.num n) = false := by simpa [strOrFalsy] using h
      exact ⟨"לא צוין", by simp [format_display_date, hf]⟩
  | arr xs =>
      have hf : JVal.truthy (.arr xs) = false := by simpa [strOrFalsy] using h
      exact ⟨"לא צוין", by simp [format_display_date, hf]⟩
  | obj m =>
      have hf : JVal.truthy (.obj m) = false := by simpa [strOrFalsy] using h
      exact ⟨"לא צוין", by simp [format_display_date, hf]⟩

/-- Stepwise evaluation of a lookup over an explicit binding list. -/
@[simp] theorem jget_cons (k k' : String) (v : JVal) (rest : JMap) :
    jget ((k, v) :: rest) k' = if (k == k') = true then some v else jget rest k' := by
  by_cases h : (k == k') = true <;> simp [jget, List.find?, h]

/-- Under the schema constraints (non-null title, a CHECK-passing priority
and creation channel), `_save_task` inserts exactly the described row and
returns its fresh id. -/
theorem save_task_eq (today : Date) (db : Db) (u : Nat) (p : JMap) (cv : JVal)
    (htitle : (jgetD p "title" (.str "") == JVal.null) = false)
    (hpr : inOrNull (jgetD p "priority" (.str "medium"))
      ["low", "medium", "high", "urgent"] = true)
    (hcv : inOrNull cv ["whatsapp_text", "whatsapp_voice", "web", "api"] = true) :
    save_task today db u p cv =
      ({ db with tasks := savedTaskRow today db u p cv :: db.tasks,
                 nextTaskId := db.nextTaskId + 1 }, some db.nextTaskId) := by
  have htt : inOrNull (.str "today")
      ["today", "scheduled", "recurring", "someday", "delegated", "meeting"] = true := by
    decide
  have hts : inOrNull (.str "scheduled")
      ["today", "scheduled", "recurring", "someday", "delegated", "meeting"] = true := by
    decide
  unfold save_task create_task savedTaskRow
  simp only [jgetD] at htitle hpr hcv
  by_cases hc : (savedDueDate today p == today) = true <;>
    simp [hc, jgetD, htitle, hpr, hcv, htt, hts] <;> simp [jget]

/-- C1: at the task flow's reminder-selection step, every input selecting
one of the four fixed offsets (60, 120, 1440 minutes, or none) persists
the task; when an offset was chosen exactly one reminder is created,
scheduled at the stored task's due datetime minus the offset (its due
time defaulting to 09:00, per the spec-modelled `create_single_reminder`
missing from the sources); and the flow moves to the `delegate_ask` step.
Hypotheses: the flow data is at the reminder step with an object of
parsed slots whose due date is a string or unset, and whose title /
priority / creation channel pass the tasks-table schema constraints. -/
theorem c1_reminder_step (env : Env) (st : St) (u : Nat) (phone text : String)
    (aid : Option String) (fd p : JMap) (sel : Option Nat)
    (hstep : jgetD fd "step" (.str "input") = .str "reminder")
    (hparsed : jgetD fd "parsed" (.obj []) = .obj p)
    (hsel : reminderSelection aid text = some sel)
    (htitle : (jgetD p "title" (.str "") == JVal.null) = false)
    (hpr : inOrNull (jgetD p "priority" (.str "medium"))
      ["low", "medium", "high", "urgent"] = true)
    (hcv : inOrNull (jgetD fd "created_via" (.str "whatsapp_text"))
      ["whatsapp_text", "whatsapp_voice", "web", "api"] = true)
    (hdd : strOrFalsy (jgetD p "due_date" .null) = true) :
    ∃ st',
      handleNewTask env st u phone text aid fd = .ok st' ∧
      st'.db.tasks =
        savedTaskRow env.today st.db u p (jgetD fd "created_via" (.str "whatsapp_text"))
          :: st.db.tasks ∧
      (savedTaskRow env.today st.db u p
        (jgetD fd "created_via" (.str "whatsapp_text"))).user_id = u ∧
      (∀ m, sel = some m →
        ∃ r, st'.db.reminders = r :: st.db.reminders ∧
          r.task_id = st.db.nextTaskId ∧
          r.scheduled_time =
            taskDueMinutes (savedTaskRow env.today st.db u p
              (jgetD fd "created_via" (.str "whatsapp_text"))) - (m : Int) ∧
          r.status = "pending") ∧
      (sel = none → st'.db.reminders = st.db.reminders) ∧
      (getFlowOf st'.conv u).1 = .str "new_task" ∧
      jget (getFlowOf st'.conv u).2 "step" = some (.str "delegate_ask") := by
  obtain ⟨dd, hddeq⟩ := format_display_date_some _ hdd
  have hsave := save_task_eq env.today st.db u p
    (jgetD fd "created_via" (.str "whatsapp_text")) htitle hpr hcv
  have hflow : ∀ d : JMap,
      getFlowOf (set_flow st.conv u (.str "new_task") (some d) st.now) u =
        (.str "new_task", d) :=
    fun d => getFlow_set st.conv u (.str "new_task") d st.now (by decide)
  cases sel with
  | some m =>
      refine ⟨emit (emit { st with
          db := { st.db with
            tasks := savedTaskRow env.today st.db u p
              (jgetD fd "created_via" (.str "whatsapp_text")) :: st.db.tasks,
            nextTaskId := st.db.nextTaskId + 1,
            reminders := { task_id := st.db.nextTaskId, user_id := u,
                           reminder_type := "before_task",
                           scheduled_time := taskDueMinutes (savedTaskRow env.today st.db u p
                             (jgetD fd "created_via" (.str "whatsapp_text"))) - (m : Int),
                           status := "pending",
                           message_template := "Reminder" } :: st.db.reminders },
          conv := set_flow st.conv u (.str "new_task")
            (some (jset (jset fd "task_id" (.num st.db.nextTaskId)) "step"
              (.str "delegate_ask"))) st.now }
          (.text phone ("✅ המשימה נשמרה!\n\n📌 *" ++ pyStr (jgetD p "title" (.str ""))
            ++ "*\n📅 תאריך: " ++ dd ++ "\n⏰ תזכורת: " ++ reminder_text (some m)
            ++ "\n\n📋 " ++ dashboardUrl ++ "/tasks")))
          (.delegateAsk phone), ?_, by simp [emit], rfl, ?_, ?_, ?_, ?_⟩
      · simp [handleNewTask, hstep, hparsed, hsel, hsave, hddeq,
              create_single_reminder, emit, setFlowSt, savedTaskRow]
      · intro m' hm'
        injection hm' with hm'
        subst hm'
        exact ⟨{ task_id := st.db.nextTaskId, user_id := u,
                 reminder_type := "before_task",
                 scheduled_time := taskDueMinutes (savedTaskRow env.today st.db u p
                   (jgetD fd "created_via" (.str "whatsapp_text"))) - (m : Int),
                 status := "pending", message_template := "Reminder" },
               by simp [emit], rfl, rfl, rfl⟩
      · intro hcontra
        exact absurd hcontra (by simp)
      · simp [emit, setFlowSt, hflow]
      · simp [emit, setFlowSt, hflow, jget_jset_self]
  | none =>
      refine ⟨emit (emit { st with
          db := { st.db with
            tasks := savedTaskRow env.today st.db u p
              (jgetD fd "created_via" (.str "whatsapp_text")) :: st.db.tasks,
            nextTaskId := st.db.nextTaskId + 1 },
          conv := set_flow st.conv u (.str "new_task")
            (some (jset (jset fd "task_id" (.num st.db.nextTaskId)) "step"
              (.str "delegate_ask"))) st.now }
          (.text phone ("✅ המשימה נשמרה!\n\n📌 *" ++ pyStr (jgetD p "title" (.str ""))
            ++ "*\n📅 תאריך: " ++ dd ++ "\n⏰ תזכורת: " ++ reminder_text none
            ++ "\n\n📋 " ++ dashboardUrl ++ "/tasks")))
          (.delegateAsk phone), ?_, by simp [emit], rfl, ?_, ?_, ?_, ?_⟩
      · simp [handleNewTask, hstep, hparsed, hsel, hsave, hddeq, emit, setFlowSt]
      · intro m' hm'
        exact absurd hm' (by simp)
      · intro _
        simp [emit]
      · simp [emit, setFlowSt, hflow]
      · simp [emit, setFlowSt, hflow, jget_jset_self]

/-- Parsed slots for the C1 witness scenario. -/
def c1parsed : JMap :=
  [("title", .str "לקנות חלב"), ("due_date", .str "2025-10-13")]

/-- Flow data at the reminder step for the C1 witness scenario. -/
def c1fdSample : JMap :=
  [("step", .str "reminder"), ("parsed", .obj c1parsed)]

/-- C1 witness: picking "one hour before" on a task due 2025-10-13
persists the task, creates exactly one reminder 60 minutes before its due
datetime, and moves the flow to the delegate_ask step. -/
theorem c1_reminder_step_witness :
    reminderSelection (some "remind_1h") "" = some (some 60) ∧
    (∃ st',
      handleNewTask envSample stEmpty 0 "p" "" (some "remind_1h") c1fdSample = .ok st' ∧
      st'.db.tasks =
        savedTaskRow envSample.today stEmpty.db 0 c1parsed
          (jgetD c1fdSample "created_via" (.str "whatsapp_text")) :: stEmpty.db.tasks ∧
      (savedTaskRow envSample.today stEmpty.db 0 c1parsed
        (jgetD c1fdSample "created_via" (.str "whatsapp_text"))).user_id = 0 ∧
      (∀ m, (some 60 : Option Nat) = some m →
        ∃ r, st'.db.reminders = r :: stEmpty.db.reminders ∧
          r.task_id = stEmpty.db.nextTaskId ∧
          r.scheduled_time =
            taskDueMinutes (savedTaskRow envSample.today stEmpty.db 0 c1parsed
              (jgetD c1fdSample "created_via" (.str "whatsapp_text"))) - (m : Int) ∧
          r.status = "pending") ∧
      ((some 60 : Option Nat) = none → st'.db.reminders = stEmpty.db.reminders) ∧
      (getFlowOf st'.conv 0).1 = .str "new_task" ∧
      jget (getFlowOf st'.conv 0).2 "step" = some (.str "delegate_ask")) :=
  ⟨by decide,
   c1_reminder_step envSample stEmpty 0 "p" "" (some "remind_1h") c1fdSample
     c1parsed (some 60) (by decide) (by decide) (by decide) (by decide)
     (by decide) (by decide) (by decide)⟩

/-- Flow data of a user mid new-task flow (C2 counterexample scenario). -/
def c2fdCe : JMap := [("step", .str "input"), ("created_via", .str "whatsapp_text")]

/-- State with the new-task flow active for user 0. -/
def c2stCe : St := ⟨Db.empty, set_flow emptyConv 0 (.str "new_task") (some c2fdCe) 0, 0, []⟩

/-- C2 counterexample: the claim's "for every active flow" fails for the
`new_task` flow. A voice note arriving mid `new_task` does NOT enter
`voice_pending`: the handler parses the transcript directly and jumps to
the flow's own `confirm` step. -/
theorem c2_voice_counterexample :
    (getFlowOf (handleVoiceMessage envSample c2stCe 0 "p" (some "לקנות חלב")).conv 0).1
      = .str "new_task" ∧
    jget (getFlowOf (handleVoiceMessage envSample c2stCe 0 "p" (some "לקנות חלב")).conv 0).2
      "step" = some (.str "confirm") ∧
    ¬(getFlowOf (handleVoiceMessage envSample c2stCe 0 "p" (some "לקנות חלב")).conv 0).1
      = .str "voice_pending" := by
  refine ⟨rfl, rfl, by decide⟩

/-- C2 (amended): (a) for every active flow other than the voice
sub-states and the direct-parse flows `new_task`/`new_meeting`, a voice
message enters `voice_pending`, storing the transcript under
`_pending_voice` and the interrupted flow's name under `_return_flow`;
(b) from `voice_pending`, a positive confirmation re-dispatches the stored
transcript as typed text into the interrupted flow with its flow data
(minus the two bookkeeping keys) intact — so a legacy meeting flow
interrupted at `time_select` resumes at `time_select`, not at `input`. -/
theorem c2_voice_roundtrip (env : Env) :
    (∀ (st : St) (u : Nat) (phone t f : String) (fd : JMap),
      getFlowOf st.conv u = (.str f, fd) →
      ¬f = "" → ¬f = "voice_pending" → ¬f = "voice_confirm" →
      ¬f = "new_task" → ¬f = "new_meeting" →
      handleVoiceMessage env st u phone (some t) =
        emit (setFlowSt st u (.str "voice_pending")
          (jset (jset fd "_pending_voice" (.str t)) "_return_flow" (.str f)))
          (.voiceConfirm phone t)) ∧
    (∀ (fuel : Nat) (st : St) (u : Nat) (phone text t rf : String)
      (aid : Option String) (fd : JMap),
      voiceConfirmTok aid text = true →
      jget fd "_pending_voice" = some (.str t) →
      jget fd "_return_flow" = some (.str rf) →
      ¬rf = "" →
      handleFlow env (fuel + 1) st u phone text aid (.str "voice_pending") fd =
        handleFlow env fuel
          (setFlowSt st u (.str rf) (jpop (jpop fd "_pending_voice") "_return_flow"))
          u phone t none (.str rf) (jpop (jpop fd "_pending_voice") "_return_flow")) := by
  constructor
  · intro st u phone t f fd hflow h0 h1 h2 h3 h4
    have htr : (JVal.str f).truthy = true := truthy_str f h0
    simp [handleVoiceMessage, hflow, handleVoiceInFlow, htr, h1, h2, h3, h4]
  · intro fuel st u phone text t rf aid fd hpos hpv hrf hrfne
    have hj : jget (jpop fd "_pending_voice") "_return_flow" = some (.str rf) := by
      rw [jget_jpop_ne fd "_pending_voice" "_return_flow" (by decide)]
      exact hrf
    have htr : (JVal.str rf).truthy = true := truthy_str rf hrfne
    simp [handleFlow, hpos, hpv, jgetD, hj, htr]

/-- Flow data of the legacy meeting flow interrupted at time selection. -/
def c2fdA : JMap := [("step", .str "time_select"), ("task", .obj [("title", .str "פגישה")])]

/-- State with the legacy meeting flow active for user 0. -/
def c2stA : St := ⟨Db.empty, set_flow emptyConv 0 (.str "meeting") (some c2fdA) 0, 0, []⟩

/-- Voice-pending flow data holding a stored transcript and a legacy
meeting return flow. -/
def c2fdB : JMap :=
  [("_pending_voice", .str "מחר"), ("_return_flow", .str "meeting"),
   ("step", .str "time_select")]

/-- C2 witness: a voice note during the legacy meeting flow's time_select
step enters voice_pending with the transcript and return-flow stored; a
"1" confirmation from voice_pending re-dispatches the transcript into the
meeting flow with the time_select step intact. -/
theorem c2_voice_roundtrip_witness :
    (handleVoiceMessage envSample c2stA 0 "p" (some "מחר בשמונה") =
      emit (setFlowSt c2stA 0 (.str "voice_pending")
        (jset (jset c2fdA "_pending_voice" (.str "מחר בשמונה")) "_return_flow"
          (.str "meeting")))
        (.voiceConfirm "p" "מחר בשמונה")) ∧
    (handleFlow envSample 2 stEmpty 0 "p" "1" none (.str "voice_pending") c2fdB =
      handleFlow envSample 1
        (setFlowSt stEmpty 0 (.str "meeting")
          (jpop (jpop c2fdB "_pending_voice") "_return_flow"))
        0 "p" "מחר" none (.str "meeting")
        (jpop (jpop c2fdB "_pending_voice") "_return_flow")) :=
  ⟨(c2_voice_roundtrip envSample).1 c2stA 0 "p" "מחר בשמונה" "meeting" c2fdA rfl
     (by decide) (by decide) (by decide) (by decide) (by decide),
   (c2_voice_roundtrip envSample).2 1 stEmpty 0 "p" "1" "מחר" "meeting" none c2fdB
     (by decide) (by decide) (by decide) (by decide)⟩

/-! ## C7 — the task slot extractor's title guarantees -/

theorem length_asString (l : List Char) : (l.asString).length = l.length := rfl

/-- Python slicing `s[:n]` yields at most `n` characters. -/
theorem strTake_length_le (s : String) (n : Nat) : (strTake s n).length ≤ n := by
  show ((s.toList.take n).asString).length ≤ n
  rw [length_asString, List.length_take]
  exact Nat.min_le_left _ _

theorem asString_eq_empty (l : List Char) (h : l.asString = "") : l = [] := by
  have h2 : (l.asString).data = ("" : String).data := by rw [h]
  simpa using h2

/-- A positive-length slice of a nonempty string is nonempty. -/
theorem strTake_ne_empty (s : String) (n : Nat) (hs : ¬s = "") (hn : 0 < n) :
    ¬strTake s n = "" := by
  intro h
  have h1 : s.toList.take n = [] := asString_eq_empty _ h
  have h2 : s.toList = [] := by
    cases hl : s.toList with
    | nil => rfl
    | cons c cs =>
        rw [hl] at h1
        cases n with
        | zero => omega
        | succ k => simp at h1
  exact hs (String.ext h2)

/-- The truncate-or-substitute tail of the title extraction always yields
a nonempty title of at most 80 characters when the raw input is nonempty. -/
theorem clampTitle_spec (text t : String) (htext : ¬text = "") :
    ¬clampTitle text t = "" ∧ (clampTitle text t).length ≤ 80 := by
  unfold clampTitle
  by_cases h80 : t.length > 80
  · rw [if_pos h80]
    by_cases he : (strTake t 77 ++ "...").isEmpty = true
    · rw [if_pos he]
      exact ⟨strTake_ne_empty text 80 htext (by decide), strTake_length_le text 80⟩
    · rw [if_neg he]
      constructor
      · intro hc; rw [hc] at he; exact he rfl
      · have h1 : (strTake t 77 ++ "...").length = (strTake t 77).length + 3 := by
          rw [String.length_append]; rfl
        have h2 := strTake_length_le t 77
        omega
  · rw [if_neg h80]
    by_cases he : t.isEmpty = true
    · rw [if_pos he]
      exact ⟨strTake_ne_empty text 80 htext (by decide), strTake_length_le text 80⟩
    · rw [if_neg he]
      refine ⟨?_, by omega⟩
      intro hc; rw [hc] at he; exact he rfl

/-- The fallback title of `extract_task_from_transcript` is nonempty and
capped at 80 characters for nonempty input. -/
theorem extractTitle_spec (text : String) (h : ¬text = "") :
    ¬extractTitle text = "" ∧ (extractTitle text).length ≤ 80 :=
  clampTitle_spec text _ h

/-- The regex-fallback tail of `parse_task_text` always produces a record
whose title slot is a nonempty string of at most 80 characters. -/
theorem taskFallback_title (today : Date) (text : String) (h : ¬text = "") :
    ∃ p s, taskFallback today text = some p ∧
      jget p "title" = some (.str s) ∧ ¬s = "" ∧ s.length ≤ 80 := by
  unfold taskFallback extract_task_from_transcript
  by_cases he : (pyStrip text).isEmpty = true
  · simp only [he, if_true]
    refine ⟨_, strTake text 80, rfl, ?_, strTake_ne_empty text 80 h (by decide),
      strTake_length_le text 80⟩
    simp [jget, List.find?]
  · have hne : ¬pyStrip text = "" := by
      intro hc; rw [hc] at he; exact he rfl
    obtain ⟨hne', hlen⟩ := extractTitle_spec (pyStrip text) hne
    simp only [he, if_false]
    refine ⟨_, extractTitle (pyStrip text), rfl, ?_, hne', hlen⟩
    simp [jget, jgetD, List.find?]

/-- An 81-character title as returned verbatim by the GPT backend. -/
def c7title : String := String.mk (List.replicate 81 'a')

/-- A GPT oracle whose task parser answers with an over-long title. -/
def c7oracle : Oracle :=
  ⟨fun _ => none, fun _ => some (.obj [("title", .str c7title)]), fun _ => none⟩

/-- C7 counterexample: when GPT answers with a truthy title, the extractor
returns it verbatim with no 80-character cap — here an 81-character title
survives into the returned record. -/
theorem c7_title_cap_counterexample :
    parse_task_text envSample.today c7oracle "משימה" =
      some [("title", .str c7title), ("due_date", JVal.null), ("due_time", JVal.null),
            ("priority", .str "medium"), ("assignee_name", JVal.null)] ∧
    80 < c7title.length := ⟨rfl, by decide⟩

/-- C7 (amended): (a) for every nonempty input, whenever the GPT response
is absent, falsy, or a JSON object, `parse_task_text` returns a record
whose title slot is truthy (in particular non-null) — but on the GPT path
the title is returned verbatim, with no length cap; (b) the regex fallback
path always produces a nonempty title of at most 80 characters, cut at the
first sentence boundary after stripping leading filler phrases. -/
theorem c7_task_extractor :
    (∀ (today : Date) (o : Oracle) (text : String), ¬text = "" →
      (∀ r, o.taskP text = some r → r.truthy = true → ∃ m, r = JVal.obj m) →
      ∃ p t, parse_task_text today o text = some p ∧
        jget p "title" = some t ∧ t.truthy = true) ∧
    (∀ (today : Date) (text : String), ¬text = "" →
      ∃ p s, taskFallback today text = some p ∧
        jget p "title" = some (.str s) ∧ ¬s = "" ∧ s.length ≤ 80) := by
  constructor
  · intro today o text htext ho
    cases hopt : o.taskP text with
    | none =>
        obtain ⟨p, s, hp, hti, hs, _⟩ := taskFallback_title today text htext
        exact ⟨p, .str s, by simp [parse_task_text, hopt, hp], hti, truthy_str s hs⟩
    | some r =>
        by_cases hr : r.truthy = true
        · obtain ⟨m, rfl⟩ := ho r hopt hr
          by_cases hti : (jgetD m "title" JVal.null).truthy = true
          · refine ⟨[("title", jgetD m "title" (.str (strTake text 80))),
              ("due_date", jgetD m "due_date" JVal.null),
              ("due_time", jgetD m "due_time" JVal.null),
              ("priority", jgetD m "priority" (.str "medium")),
              ("assignee_name", jgetD m "assignee_name" JVal.null)],
              jgetD m "title" (.str (strTake text 80)), ?_, ?_, ?_⟩
            · simp [parse_task_text, hopt, hr, hti]
            · simp [jget, List.find?]
            · cases hj : jget m "title" with
              | none => rw [jgetD, hj] at hti; simp [JVal.truthy] at hti
              | some v => rw [jgetD, hj] at hti ⊢; exact hti
          · obtain ⟨p, s, hp, hti2, hs, _⟩ := taskFallback_title today text htext
            exact ⟨p, .str s, by simp [parse_task_text, hopt, hr, hti, hp], hti2,
              truthy_str s hs⟩
        · obtain ⟨p, s, hp, hti, hs, _⟩ := taskFallback_title today text htext
          exact ⟨p, .str s, by simp [parse_task_text, hopt, hr, hp], hti,
            truthy_str s hs⟩
  · exact fun today text h => taskFallback_title today text h

/-- C7 witness: with the GPT backend down and the nonempty input
"לקנות חלב מחר", the extractor returns a record with a truthy title, and
the fallback's title is a nonempty string of at most 80 characters. -/
theorem c7_task_extractor_witness :
    (∃ p t, parse_task_text envSample.today oracleNone "לקנות חלב מחר" = some p ∧
      jget p "title" = some t ∧ t.truthy = true) ∧
    (∃ p s, taskFallback envSample.today "לקנות חלב מחר" = some p ∧
      jget p "title" = some (.str s) ∧ ¬s = "" ∧ s.length ≤ 80) :=
  ⟨c7_task_extractor.1 envSample.today oracleNone "לקנות חלב מחר" (by decide)
     (fun r hr _ => by simp [oracleNone] at hr),
   c7_task_extractor.2 envSample.today "לקנות חלב מחר" (by decide)⟩

/-! ## C8 — meeting/task atomicity -/

/-- Task ids are below the AUTOINCREMENT counter and pairwise distinct. -/
def taskIdsOk (db : Db) : Prop :=
  (∀ t ∈ db.tasks, t.id < db.nextTaskId) ∧
  db.tasks.Pairwise (fun a b => ¬a.id = b.id)

/-- Every meeting row references exactly one backing task row of type
`meeting`. -/
def meetingsBacked (db : Db) : Prop :=
  ∀ m ∈ db.meetings, ∃! t : TaskRow,
    t ∈ db.tasks ∧ t.id = m.task_id ∧ t.task_type = .str "meeting"

/-- C8: `create_meeting` is atomic. On failure nothing is committed and
the result is null; on success exactly one task row (of type `meeting`,
created first, carrying the fresh task id) and one meeting row referencing
it are committed together, and the exactly-one-backing-task invariant is
preserved along with the id discipline. -/
theorem c8_meeting_atomic (db : Db) (org : Nat) (data : JMap) (fail : Bool) :
    ((create_meeting db org data fail).2 = none →
      (create_meeting db org data fail).1 = db) ∧
    (∀ mid, (create_meeting db org data fail).2 = some mid →
      ∃ task meeting,
        (create_meeting db org data fail).1.tasks = task :: db.tasks ∧
        (create_meeting db org data fail).1.meetings = meeting :: db.meetings ∧
        meeting.task_id = task.id ∧ task.task_type = .str "meeting" ∧
        meeting.id = mid) ∧
    (taskIdsOk db → meetingsBacked db →
      taskIdsOk (create_meeting db org data fail).1 ∧
      meetingsBacked (create_meeting db org data fail).1) := by
  by_cases hc : fail = true ∨ (jgetD data "title" (.str "") == JVal.null) = true
  · refine ⟨fun _ => by simp [create_meeting, hc], fun mid hm => ?_, fun h1 h2 => ?_⟩
    · simp [create_meeting, hc] at hm
    · constructor
      · simpa [create_meeting, hc] using h1
      · simpa [create_meeting, hc] using h2
  · refine ⟨fun hnone => ?_, fun mid hm => ?_, fun h1 h2 => ?_⟩
    · simp [create_meeting, hc] at hnone
    · simp only [create_meeting, hc, if_neg, ite_false] at hm ⊢
      injection hm with hm
      refine ⟨_, _, rfl, rfl, rfl, rfl, hm⟩
    · have hA := h1.1
      have hP := h1.2
      rw [create_meeting, if_neg hc]
      constructor
      · constructor
        · intro t ht
          rcases List.mem_cons.mp ht with rfl | ht
          · exact Nat.lt_succ_self _
          · exact Nat.lt_trans (hA t ht) (Nat.lt_succ_self _)
        · refine List.Pairwise.cons ?_ hP
          intro t ht
          have := hA t ht
          show ¬db.nextTaskId = t.id
          omega
      · intro m hm
        rcases List.mem_cons.mp hm with rfl | hm
        · refine ⟨_, ⟨List.mem_cons_self _ _, rfl, rfl⟩, ?_⟩
          rintro y ⟨hy, hyid, _⟩
          rcases List.mem_cons.mp hy with rfl | hy
          · rfl
          · exact absurd hyid (by have := hA y hy; simp; omega)
        · obtain ⟨t, ⟨htmem, htid, htty⟩, huniq⟩ := h2 m hm
          refine ⟨t, ⟨List.mem_cons_of_mem _ htmem, htid, htty⟩, ?_⟩
          rintro y ⟨hy, hyid, hyty⟩
          rcases List.mem_cons.mp hy with rfl | hy
          · exfalso
            have hlt := hA t htmem
            simp at hyid
            omega
          · exact huniq y ⟨hy, hyid, hyty⟩

/-- Meeting data for the C8 witness scenario. -/
def c8data : JMap :=
  [("title", .str "פגישה עם דנה"), ("meeting_date", .str "2025-10-13"),
   ("start_time", .str "10:00")]

/-- C8 witness: creating a concrete meeting on the empty store commits one
task and one meeting referencing it and keeps the invariants; with the
exception path injected the store is unchanged. -/
theorem c8_meeting_atomic_witness :
    (∃ task meeting,
      (create_meeting Db.empty 0 c8data false).1.tasks = task :: Db.empty.tasks ∧
      (create_meeting Db.empty 0 c8data false).1.meetings =
        meeting :: Db.empty.meetings ∧
      meeting.task_id = task.id ∧ task.task_type = .str "meeting" ∧
      meeting.id = 1) ∧
    (taskIdsOk (create_meeting Db.empty 0 c8data false).1 ∧
     meetingsBacked (create_meeting Db.empty 0 c8data false).1) ∧
    (create_meeting Db.empty 0 c8data true).1 = Db.empty :=
  ⟨(c8_meeting_atomic Db.empty 0 c8data false).2.1 1 rfl,
   (c8_meeting_atomic Db.empty 0 c8data false).2.2
     (by constructor <;> simp [taskIdsOk, Db.empty])
     (by intro m hm; simp [Db.empty] at hm),
   (c8_meeting_atomic Db.empty 0 c8data true).1 rfl⟩

/-! ## C9 — phone normalization in the delegation flow -/

/-- A digits-only character list cannot contain the vCard marker. -/
theorem no_vcard_in_digits (l : List Char) (hd : ∀ c ∈ l, c.isDigit = true) :
    listHasInfix ("BEGIN:VCARD".toList) l = false := by
  induction l with
  | nil => rfl
  | cons c cs ih =>
      have hc := hd c (List.mem_cons_self _ _)
      have hcs : ∀ x ∈ cs, x.isDigit = true := fun x hx => hd x (List.mem_cons_of_mem _ hx)
      have hB : ('B' == c) = false := by
        cases h : ('B' == c) with
        | false => rfl
        | true =>
            have he : 'B' = c := by simpa using h
            rw [← he] at hc
            exact absurd hc (by decide)
      have h0 : litAt ("BEGIN:VCARD".toList) (c :: cs) = none := by
        show litAt ('B' :: "EGIN:VCARD".toList) (c :: cs) = none
        simp [litAt, hB]
      show ((litAt ("BEGIN:VCARD".toList) (c :: cs)).isSome
        || listHasInfix ("BEGIN:VCARD".toList) cs) = false
      rw [h0, ih hcs]
      rfl

/-- `_normalize_phone` on a stripped all-digit 10-character number with a
leading zero: the zero is replaced by the +972 country code. -/
theorem normalize_phone_local (s : String) (cs : List Char)
    (hsl : s.toList = '0' :: cs) (hstrip : pyStrip s = s)
    (hlen : s.length = 10) (hdig : ∀ c ∈ s.toList, c.isDigit = true) :
    normalize_phone s = some ("+972" ++ strDrop s 1) := by
  have hne : ¬s = "" := by
    intro h; rw [h] at hsl; simp at hsl
  have h1 : (s == "") = false := by simp [hne]
  have h3 : strStarts s "+" = false := by unfold strStarts; rw [hsl]; rfl
  have h4 : filterDigits s = s := by
    unfold filterDigits; rw [List.filter_eq_self.mpr hdig]; rfl
  have h5 : strStarts s "0" = true := by
    unfold strStarts; rw [hsl]; simp [litAt]
  have h6 : strStarts s "+972" = false := by unfold strStarts; rw [hsl]; rfl
  have h7 : strStarts s "972" = false := by unfold strStarts; rw [hsl]; rfl
  simp [normalize_phone, hstrip, h1, h3, h4, h5, h6, h7, hlen]

/-- C9: a valid 10-digit local-format phone number typed during the
delegation-contact flow is normalized — leading zero replaced by +972 —
both by `_normalize_phone` itself and on the delegation row the flow
stores: the handler records `assignee_phone` (and, lacking a contact name,
`assignee_name`) as the canonical international number. -/
theorem c9_delegation_phone :
    (∀ (s : String) (cs : List Char), s.toList = '0' :: cs → pyStrip s = s →
      s.length = 10 → (∀ c ∈ s.toList, c.isDigit = true) →
      normalize_phone s = some ("+972" ++ strDrop s 1)) ∧
    (∀ (env : Env) (st : St) (u : Nat) (phone text : String) (fd : JMap)
      (tid : Int) (dd : String) (cs : List Char),
      text.toList = '0' :: cs → pyStrip text = text →
      text.length = 10 → (∀ c ∈ text.toList, c.isDigit = true) →
      jgetD fd "task_id" JVal.null = .num tid → ¬tid = 0 →
      format_display_date (jgetD fd "due_date" (.str "")) = some dd →
      ∃ st', handleDelegateInline env st u phone text fd = .ok st' ∧
        st'.db.delegations =
          { task_id := .num tid, delegator_id := u,
            assignee_phone := .str ("+972" ++ strDrop text 1),
            assignee_name := .str ("+972" ++ strDrop text 1),
            status := "pending" } :: st.db.delegations) := by
  constructor
  · exact fun s cs h1 h2 h3 h4 => normalize_phone_local s cs h1 h2 h3 h4
  · intro env st u phone text fd tid dd cs hsl hstrip hlen hdig htid htidne hdd
    have hnp : normalize_phone text = some ("+972" ++ strDrop text 1) :=
      normalize_phone_local text cs hsl hstrip hlen hdig
    have hne : ¬text = "" := by
      intro h; rw [h] at hsl; simp at hsl
    have hie : text.isEmpty = false := by
      cases hb : text.isEmpty
      · rfl
      · exact absurd ((String.isEmpty_iff text).mp hb) hne
    have hsc : strContains text "BEGIN:VCARD" = false :=
      no_vcard_in_digits text.toList hdig
    have hvc : parse_vcard text = (none, none) := by
      simp [parse_vcard, hsc]
    have hps : phoneShape text = true := by
      have hl : text.data.length = 10 := hlen
      simp [phoneShape, hl, List.all_eq_true]
      intro c hc
      simp [hdig c hc]
    have htru : (JVal.num tid).truthy = true := by
      simp [JVal.truthy, htidne]
    simp only [handleDelegateInline, hvc, hie, hstrip, hps, hnp, htid, htru, hdd,
      Bool.false_eq_true, not_false_eq_true, true_and, and_true, if_true, ite_true,
      Option.filter, Option.getD]
    refine ⟨_, rfl, ?_⟩
    simp [recordDelegation, emit, clearFlowSt, sendNextPrompt]

/-- Flow data of the delegate-contact step for the C9 witness. -/
def c9fd : JMap :=
  [("task_id", .num 5), ("task_title", .str "לקנות חלב"),
   ("due_date", .str "2025-10-13")]

/-- C9 witness: the typed number 0501234567 is stored on the delegation
row as +972501234567. -/
theorem c9_delegation_phone_witness :
    normalize_phone "0501234567" = some ("+972" ++ strDrop "0501234567" 1) ∧
    (∃ st', handleDelegateInline envSample stEmpty 0 "p" "0501234567" c9fd = .ok st' ∧
      st'.db.delegations =
        { task_id := .num 5, delegator_id := 0,
          assignee_phone := .str ("+972" ++ strDrop "0501234567" 1),
          assignee_name := .str ("+972" ++ strDrop "0501234567" 1),
          status := "pending" } :: stEmpty.db.delegations) :=
  ⟨c9_delegation_phone.1 "0501234567" ("501234567".toList) (by decide) rfl rfl
     (by decide),
   c9_delegation_phone.2 envSample stEmpty 0 "p" "0501234567" c9fd 5 "13/10/2025"
     ("501234567".toList) (by decide) rfl rfl (by decide) rfl (by decide) rfl⟩

end WTM
